import Mathlib

/-!
Shallow embedding of the parameter-block generation and recon-gain
subsystem of iamf-tools (`iamf/cli/proto_to_obu/parameter_block_generator.cc`)
together with a model of the ADM wav splicer, and proofs about them.

Machine integers are modelled as `Nat`/`Int` (the values involved are small
enough that no wrap-around occurs on the paths modelled); `absl::Status`
returning functions are modelled with `Except String`; the IEEE-double recon
gains are modelled as exact rationals (the multiplications by `255.0`
performed by the source are exact for every gain used in a witness below).
-/

namespace Iamf

/-- `ChannelLabel::Label` from `iamf/cli/channel_label.h`: the closed label
enumeration of original channels and their demixed counterparts that the
generator consumes. -/
inductive Label where
  | kMono | kL2 | kR2 | kCentre | kLFE
  | kL3 | kR3 | kLs5 | kRs5 | kLtf2 | kRtf2
  | kL5 | kR5 | kL7 | kR7 | kLrs7 | kRrs7 | kLtb4 | kRtb4
  | kDemixedR2 | kDemixedL3 | kDemixedR3 | kDemixedLs5 | kDemixedRs5
  | kDemixedLtf2 | kDemixedRtf2 | kDemixedL5 | kDemixedR5
  | kDemixedL7 | kDemixedR7 | kDemixedLrs7 | kDemixedRrs7
  | kDemixedLtb4 | kDemixedRtb4
  deriving DecidableEq, Repr

/-- `ChannelNumbers` (surround / lfe / height counts) for one layer. -/
structure ChannelNumbers where
  surround : Nat
  lfe : Nat
  height : Nat
  deriving DecidableEq, Repr

/-- One iteration of the surround loop of `FindDemixedChannels`
(the `switch (surround)` body, lines 160-187 of the source). -/
def stepSurround (accS s : Nat) : Except String (List Label) :=
  if s = 2 then .ok (if accS = 1 then [.kDemixedR2] else [])
  else if s = 3 then .ok [.kDemixedL3, .kDemixedR3]
  else if s = 5 then .ok [.kDemixedLs5, .kDemixedRs5]
  else if s = 7 then .ok [.kDemixedL7, .kDemixedR7, .kDemixedLrs7, .kDemixedRrs7]
  else if 7 < s then .error "Unsupported number of surround channels" else .ok []

/-- The surround `for` loop of `FindDemixedChannels`: visits
`s, s+1, ..., s+fuel-1` in order, concatenating the labels emitted at each
visited surround count, and aborting at the first unsupported count. -/
def surroundLoop (accS : Nat) : Nat → Nat → Except String (List Label)
  | _, 0 => .ok []
  | s, fuel + 1 =>
    match stepSurround accS s with
    | .error e => .error e
    | .ok here =>
      match surroundLoop accS (s + 1) fuel with
      | .error e => .error e
      | .ok rest => .ok (here ++ rest)

/-- The height block of `FindDemixedChannels` (lines 190-200 of the source). -/
def heightLabels (acc layer : ChannelNumbers) : List Label :=
  if acc.height = 2 then
    if layer.height = 4 then [.kDemixedLtb4, .kDemixedRtb4]
    else if layer.height = 2 ∧ acc.surround = 3 ∧ 3 < layer.surround then
      [.kDemixedLtf2, .kDemixedRtf2]
    else []
  else []

/-- `FindDemixedChannels`: the ordered list of newly demixed labels between
the accumulated channels and the current layer channels. The C++ loop runs
`surround` from `accumulated + 1` up to `layer` inclusive. -/
def FindDemixedChannels (acc layer : ChannelNumbers) : Except String (List Label) :=
  match surroundLoop acc.surround (acc.surround + 1) (layer.surround - acc.surround) with
  | .error e => .error e
  | .ok surroundPart => .ok (surroundPart ++ heightLabels acc layer)

/-- Bit positions of `ConvertReconGainsAndFlags` (Figure 5 of the IAMF spec;
the `switch (label)` at lines 218-260). An unrecognised label leaves
`bit_position` at its initial value `0`, exactly as the C++ `default:` branch
does after logging. -/
def bitPosition (label : Label) : Nat :=
  match label with
  | .kDemixedL7 | .kDemixedL5 | .kDemixedL3 => 0
  | .kDemixedR7 | .kDemixedR5 | .kDemixedR3 | .kDemixedR2 => 2
  | .kDemixedLs5 => 3
  | .kDemixedRs5 => 4
  | .kDemixedLtf2 => 5
  | .kDemixedRtf2 => 6
  | .kDemixedLrs7 => 7
  | .kDemixedRrs7 => 8
  | .kDemixedLtb4 => 9
  | .kDemixedRtb4 => 10
  | _ => 0

/-- Whether a label is one of the demixed labels recognised by the `switch`
of `ConvertReconGainsAndFlags`. -/
def recognizedDemixed (label : Label) : Bool :=
  match label with
  | .kDemixedL7 | .kDemixedL5 | .kDemixedL3 => true
  | .kDemixedR7 | .kDemixedR5 | .kDemixedR3 | .kDemixedR2 => true
  | .kDemixedLs5 | .kDemixedRs5 | .kDemixedLtf2 | .kDemixedRtf2 => true
  | .kDemixedLrs7 | .kDemixedRrs7 | .kDemixedLtb4 | .kDemixedRtb4 => true
  | _ => false

/-- `static_cast<uint8_t>(recon_gain * 255.0)`: C++ float-to-integer
conversion truncates toward zero; for the non-negative gains considered this
is the floor of the exact product. -/
def gainByte (g : ℚ) : Nat := (Int.floor (g * 255)).toNat

/-- One iteration of the map loop of `ConvertReconGainsAndFlags`
(lines 212-264): sets the byte at the label's bit position and ORs the bit
into the flag. The C++ function never fails. -/
def convertStep (st : List Nat × Nat) (e : Label × ℚ) : List Nat × Nat :=
  (st.1.set (bitPosition e.1) (gainByte e.2), st.2 ||| (1 <<< bitPosition e.1))

/-- `ConvertReconGainsAndFlags`: folds the (label, recon gain) entries,
in map-iteration order, over a zeroed 12-byte vector and a zero flag. -/
def ConvertReconGainsAndFlags (entries : List (Label × ℚ)) : List Nat × Nat :=
  entries.foldl convertStep (List.replicate 12 0, 0)

/-! ### Mix-gain subblocks -/

/-- The proto `AnimationType` tag consumed by `GenerateMixGainSubblock`;
`animateInvalid` stands for every value the `switch` does not recognise. -/
inductive AnimationType where
  | animateStep | animateLinear | animateBezier | animateInvalid
  deriving DecidableEq, Repr

/-- Proto step animation payload (32-bit source values). -/
structure AnimationStepMeta where
  start_point_value : Int
  deriving DecidableEq, Repr

/-- Proto linear animation payload. -/
structure AnimationLinearMeta where
  start_point_value : Int
  end_point_value : Int
  deriving DecidableEq, Repr

/-- Proto bezier animation payload. -/
structure AnimationBezierMeta where
  start_point_value : Int
  end_point_value : Int
  control_point_value : Int
  control_point_relative_time : Nat
  deriving DecidableEq, Repr

/-- Proto `MixGainParameterData`: an animation tag plus the three oneof
payloads (a proto accessor on an unset member yields the default payload,
so all three are always readable). -/
structure MixGainParameterDataMeta where
  animation_type : AnimationType
  step : AnimationStepMeta
  linear : AnimationLinearMeta
  bezier : AnimationBezierMeta
  deriving DecidableEq, Repr

/-- The OBU-side animation produced by `GenerateMixGainSubblock`
(`AnimationStepInt16` / `AnimationLinearInt16` / `AnimationBezierInt16`;
the variant determines the OBU animation-type tag). -/
inductive MixGainAnimation where
  | step (start_point_value : Int)
  | linear (start_point_value end_point_value : Int)
  | bezier (start_point_value end_point_value control_point_value : Int)
      (control_point_relative_time : Nat)
  deriving DecidableEq, Repr

/-- Modelled from the spec: `Int32ToInt16` of `iamf/common/obu_util` is not
under src/; section 4.5 specifies a lossless narrowing cast that fails on
overflow of the 16-bit range. -/
def Int32ToInt16 (v : Int) : Except String Int :=
  if v < -32768 ∨ 32767 < v then .error "NumericOverflow: value out of range of int16" else .ok v

/-- Modelled from the spec: `Uint32ToUint8` of `iamf/common/obu_util` is not
under src/; section 4.5 specifies a lossless narrowing cast to `u8` that
fails on overflow. -/
def Uint32ToUint8 (v : Nat) : Except String Nat :=
  if 255 < v then .error "NumericOverflow: value out of range of uint8" else .ok v

/-- `GenerateMixGainSubblock` (lines 95-151): dispatch on the animation type,
narrowing every point value to 16 bits (and the bezier relative time to
8 bits); unrecognised animation types are rejected. -/
def GenerateMixGainSubblock (m : MixGainParameterDataMeta) : Except String MixGainAnimation :=
  match m.animation_type with
  | .animateStep =>
    (Int32ToInt16 m.step.start_point_value).map .step
  | .animateLinear =>
    (Int32ToInt16 m.linear.start_point_value).bind fun s =>
      (Int32ToInt16 m.linear.end_point_value).map fun e => .linear s e
  | .animateBezier =>
    (Int32ToInt16 m.bezier.start_point_value).bind fun s =>
      (Int32ToInt16 m.bezier.end_point_value).bind fun e =>
        (Int32ToInt16 m.bezier.control_point_value).bind fun c =>
          (Uint32ToUint8 m.bezier.control_point_relative_time).map fun t => .bezier s e c t
  | .animateInvalid => .error "Unrecognized animation type"

/-! ### Demixing subblocks -/

/-- Proto `DMixPMode`; `invalid` stands for every unrecognised proto value. -/
inductive DMixPModeMeta where
  | mode1 | mode2 | mode3 | mode1n | mode2n | mode3n | invalid
  deriving DecidableEq, Repr

/-- OBU `DemixingInfoParameterData::DMixPMode`. -/
inductive DMixPMode where
  | kDMixPMode1 | kDMixPMode2 | kDMixPMode3
  | kDMixPMode1_n | kDMixPMode2_n | kDMixPMode3_n
  deriving DecidableEq, Repr

/-- Proto `DemixingInfoParameterData`. -/
structure DemixingInfoMeta where
  dmixp_mode : DMixPModeMeta
  reserved : Nat
  deriving DecidableEq, Repr

/-- OBU `DemixingInfoParameterData`. -/
structure DemixingInfoParameterData where
  dmixp_mode : DMixPMode
  reserved : Nat
  deriving DecidableEq, Repr

/-- Modelled from the spec: `CopyDemixingInfoParameterData` of
`iamf/cli/cli_util` is not under src/; section 4.6 specifies that the six
`dmixp_mode` values plus the reserved bits are copied bitwise and anything
else fails. -/
def CopyDemixingInfoParameterData (m : DemixingInfoMeta) : Except String DemixingInfoParameterData :=
  match m.dmixp_mode with
  | .mode1 => .ok ⟨.kDMixPMode1, m.reserved⟩
  | .mode2 => .ok ⟨.kDMixPMode2, m.reserved⟩
  | .mode3 => .ok ⟨.kDMixPMode3, m.reserved⟩
  | .mode1n => .ok ⟨.kDMixPMode1_n, m.reserved⟩
  | .mode2n => .ok ⟨.kDMixPMode2_n, m.reserved⟩
  | .mode3n => .ok ⟨.kDMixPMode3_n, m.reserved⟩
  | .invalid => .error "Unrecognized dmixp_mode"

/-! ### Recon-gain computation -/

/-- `LabelSamplesMap`: label to internal 32-bit PCM samples. -/
abbrev LabelSamplesMap : Type := List (Label × List Int)

/-- The two per-audio-element labelled frames (`LabeledFrame.label_to_samples`). -/
structure LabeledFrame where
  label_to_samples : LabelSamplesMap

/-- The external `ReconGainGenerator::ComputeReconGain` contract: given a
demixed label and the original and decoded sample maps it produces a gain in
`[0, 1]` or fails. The engine only orchestrates calls to it, so it is a
parameter of the model. -/
abbrev ComputeGainFn : Type := Label → LabelSamplesMap → LabelSamplesMap → Except String ℚ

/-- The per-label loop of `ComputeReconGains` (lines 287-291): one
`ReconGainGenerator::ComputeReconGain` call per demixed label, in order,
aborting on the first failure. -/
def gainPairs (cg : ComputeGainFn) (s d : LabelSamplesMap) :
    List Label → Except String (List (Label × ℚ))
  | [] => .ok []
  | l :: rest =>
    match cg l s d with
    | .error e => .error e
    | .ok g =>
      match gainPairs cg s d rest with
      | .error e => .error e
      | .ok tail => .ok ((l, g) :: tail)

/-- `ComputeReconGains` (lines 268-308): for layer 0 no demixed labels are
collected; for a higher layer the demixed labels are discovered and their
gains computed; then the per-layer presence flag must match the emptiness of
the collected label-to-gain map, and the gains are packed. -/
def ComputeReconGains (cg : ComputeGainFn) (layer_index : Nat)
    (layer_channels accumulated_channels : ChannelNumbers)
    (labeled_samples label_to_decoded_samples : LabelSamplesMap)
    (recon_gain_is_present_flags : List Bool) : Except String (List Nat × Nat) :=
  match (if 0 < layer_index then
      match FindDemixedChannels accumulated_channels layer_channels with
      | .error e => .error e
      | .ok labels => gainPairs cg labeled_samples label_to_decoded_samples labels
    else (.ok [] : Except String (List (Label × ℚ)))) with
  | .error e => .error e
  | .ok label_to_recon_gain =>
    if recon_gain_is_present_flags.getD layer_index false ≠ !label_to_recon_gain.isEmpty then
      .error "Mismatch of whether user specified recon gain is present"
    else
      .ok (ConvertReconGainsAndFlags label_to_recon_gain)

/-! ### Recon-gain subblocks -/

/-- One layer of the proto `ReconGainInfoParameterData`: a map from bit
position to user recon gain (iteration order made explicit as a list). -/
structure ReconGainsLayerMeta where
  recon_gain : List (Nat × Nat)
  deriving DecidableEq, Repr

/-- Proto `ReconGainInfoParameterData`. -/
structure ReconGainInfoMeta where
  recon_gains_for_layer : List ReconGainsLayerMeta
  deriving DecidableEq, Repr

/-- OBU `ReconGainElement`: a 12-bit flag plus the 12-byte gain vector. -/
structure ReconGainElement where
  recon_gain_flag : Nat
  recon_gain : List Nat
  deriving DecidableEq, Repr

/-- OBU `ReconGainInfoParameterData`: one element per layer. -/
structure ReconGainInfoParameterData where
  recon_gain_elements : List ReconGainElement
  deriving DecidableEq, Repr

/-- The user bitmask construction at the top of each layer iteration of
`GenerateReconGainSubblock` (lines 337-343). -/
def userFlagOf (entries : List (Nat × Nat)) : Nat :=
  entries.foldl (fun f e => f ||| (1 <<< e.1)) 0

/-- The user 12-byte vector construction (lines 337-343); writes at positions
of map keys over a zeroed vector (keys are below 12 in any well-formed
input, matching the C++ 12-element vector indexing contract). -/
def userGainsOf (entries : List (Nat × Nat)) : List Nat :=
  entries.foldl (fun v e => v.set e.1 e.2) (List.replicate 12 0)

/-- `IdLabeledFrameMap`: audio element id to labelled frame. -/
abbrev IdLabeledFrameMap : Type := List (Nat × LabeledFrame)

/-- One iteration of the layer loop of `GenerateReconGainSubblock`
(lines 334-409). Returns the output element for the layer together with the
accumulated channels for the next layer. With
`override_computed_recon_gains` the frame lookup, the computation and the
comparison are all skipped and the accumulated channels stay unchanged,
exactly as the C++ `continue` does. -/
def processOneLayer (override_computed_recon_gains : Bool) (cg : ComputeGainFn)
    (id_to_labeled_frame id_to_labeled_decoded_frame : IdLabeledFrameMap)
    (recon_gain_is_present_flags : List Bool)
    (channel_numbers_for_layers : List ChannelNumbers)
    (userLayers : List ReconGainsLayerMeta) (audio_element_id : Nat)
    (layer_index : Nat) (accumulated_channels : ChannelNumbers) :
    Except String (ReconGainElement × ChannelNumbers) :=
  let entries := (userLayers.getD layer_index ⟨[]⟩).recon_gain
  let user_recon_gain_flag := userFlagOf entries
  let user_recon_gains := userGainsOf entries
  let elem : ReconGainElement := ⟨user_recon_gain_flag, user_recon_gains⟩
  if override_computed_recon_gains then .ok (elem, accumulated_channels)
  else
    let layer_channels := channel_numbers_for_layers.getD layer_index ⟨0, 0, 0⟩
    match List.lookup audio_element_id id_to_labeled_frame,
        List.lookup audio_element_id id_to_labeled_decoded_frame with
    | some labeled_frame, some labeled_decoded_frame =>
      (match ComputeReconGains cg layer_index layer_channels accumulated_channels
          labeled_frame.label_to_samples labeled_decoded_frame.label_to_samples
          recon_gain_is_present_flags with
      | .error e => .error e
      | .ok (computed_recon_gains, computed_recon_gain_flag) =>
        if recon_gain_is_present_flags.getD layer_index false = false then
          .ok (elem, layer_channels)
        else if computed_recon_gain_flag ≠ user_recon_gain_flag then
          .error "Computed recon gain flag different from what user specified"
        else if user_recon_gains ≠ computed_recon_gains then
          .error "Recon gains mismatch"
        else .ok (elem, layer_channels))
    | _, _ => .error "Original or decoded audio frame not found when computing recon gains"

/-- The layer loop of `GenerateReconGainSubblock`, threading the accumulated
channel numbers through the given layer indices. -/
def processLayers (override_computed_recon_gains : Bool) (cg : ComputeGainFn)
    (id_to_labeled_frame id_to_labeled_decoded_frame : IdLabeledFrameMap)
    (recon_gain_is_present_flags : List Bool)
    (channel_numbers_for_layers : List ChannelNumbers)
    (userLayers : List ReconGainsLayerMeta) (audio_element_id : Nat) :
    List Nat → ChannelNumbers → Except String (List ReconGainElement)
  | [], _ => .ok []
  | i :: rest, acc =>
    match processOneLayer override_computed_recon_gains cg id_to_labeled_frame
        id_to_labeled_decoded_frame recon_gain_is_present_flags
        channel_numbers_for_layers userLayers audio_element_id i acc with
    | .error e => .error e
    | .ok (elem, acc') =>
      match processLayers override_computed_recon_gains cg id_to_labeled_frame
          id_to_labeled_decoded_frame recon_gain_is_present_flags
          channel_numbers_for_layers userLayers audio_element_id rest acc' with
      | .error e => .error e
      | .ok tail => .ok (elem :: tail)

/-- `GenerateReconGainSubblock` (lines 310-412): validates the user layer
count, then runs the layer loop from layer 0 with zero accumulated channels. -/
def GenerateReconGainSubblock (override_computed_recon_gains : Bool) (cg : ComputeGainFn)
    (id_to_labeled_frame id_to_labeled_decoded_frame : IdLabeledFrameMap)
    (num_layers : Nat) (recon_gain_is_present_flags : List Bool)
    (channel_numbers_for_layers : List ChannelNumbers)
    (meta : ReconGainInfoMeta) (audio_element_id : Nat) :
    Except String ReconGainInfoParameterData :=
  if 1 < num_layers ∧ num_layers ≠ meta.recon_gains_for_layer.length then
    .error "layer count mismatch between scalable audio element and user data"
  else
    match processLayers override_computed_recon_gains cg id_to_labeled_frame
        id_to_labeled_decoded_frame recon_gain_is_present_flags
        channel_numbers_for_layers meta.recon_gains_for_layer audio_element_id
        (List.range num_layers) ⟨0, 0, 0⟩ with
    | .error e => .error e
    | .ok elems => .ok ⟨elems⟩

/-! ### Parameter definitions, per-id metadata and subblock dispatch -/

/-- `ParamDefinition::ParameterDefinitionType`; `extensionType` stands for
the reserved / extension values the generator does not support. -/
inductive ParamDefinitionType where
  | kParameterDefinitionMixGain
  | kParameterDefinitionDemixing
  | kParameterDefinitionReconGain
  | extensionType
  deriving DecidableEq, Repr

/-- `ParamDefinition` (plus the `audio_element_id_` of
`ReconGainParamDefinition`): the fields the generator reads. `ptype` is the
optional returned by `GetType()`. -/
structure ParamDefinitionModel where
  ptype : Option ParamDefinitionType
  parameter_rate : Nat
  param_definition_mode : Nat
  duration : Nat
  constant_subblock_duration : Nat
  num_subblocks : Nat
  audio_element_id : Nat
  deriving DecidableEq, Repr

/-- `PerIdParameterMetadata`. -/
structure PerIdParameterMetadata where
  param_definition_type : ParamDefinitionType
  param_definition : ParamDefinitionModel
  num_layers : Nat
  recon_gain_is_present_flags : List Bool
  channel_numbers_for_layers : List ChannelNumbers
  audio_element_id : Nat
  deriving DecidableEq, Repr

/-- A value-initialised `PerIdParameterMetadata` (what
`parameter_id_to_metadata_.insert` creates before `GetPerIdMetadata` runs;
the enum value-initialises to 0 = MixGain). -/
def defaultPerIdMetadata : PerIdParameterMetadata :=
  ⟨.kParameterDefinitionMixGain, ⟨none, 0, 0, 0, 0, 0, 0⟩, 0, [], [], 0⟩

/-- Proto `ParameterSubblock`: duration plus the three typed payloads. -/
structure MetadataSubblock where
  subblock_duration : Nat
  mix_gain_parameter_data : MixGainParameterDataMeta
  demixing_info_parameter_data : DemixingInfoMeta
  recon_gain_info_parameter_data : ReconGainInfoMeta
  deriving DecidableEq, Repr

/-- The typed payload held by an OBU `ParameterSubblock`. -/
inductive ParamData where
  | mixGain (d : MixGainAnimation)
  | demixing (d : DemixingInfoParameterData)
  | reconGain (d : ReconGainInfoParameterData)
  deriving DecidableEq, Repr

/-- `GenerateParameterBlockSubblock` (lines 414-474): sets the subblock
duration when applicable and dispatches on the parameter type. The result
is the built subblock (optional explicit duration, typed payload). The null
frame maps passed by the demixing / mix-gain paths are modelled as `none`
(the recon path dereferences them, which only the recon-gain caller supplies
non-null). `ParameterBlockObu::SetSubblockDuration` is external and modelled
as total: the callers below only request durations for subblock indices they
have initialised. -/
def GenerateParameterBlockSubblock (override_computed_recon_gains : Bool)
    (cg : ComputeGainFn)
    (id_to_labeled_frame id_to_labeled_decoded_frame : Option IdLabeledFrameMap)
    (per_id_metadata : PerIdParameterMetadata)
    (include_subblock_duration : Bool) (subblock_index : Nat)
    (metadata_subblock : MetadataSubblock) : Except String (Option Nat × ParamData) :=
  let dur : Option Nat :=
    if include_subblock_duration then some metadata_subblock.subblock_duration else none
  match per_id_metadata.param_definition_type with
  | .kParameterDefinitionMixGain =>
    (match GenerateMixGainSubblock metadata_subblock.mix_gain_parameter_data with
    | .error e => .error e
    | .ok a => .ok (dur, .mixGain a))
  | .kParameterDefinitionDemixing =>
    if 1 < subblock_index then
      .error "There should be only one subblock for demixing info."
    else
      (match CopyDemixingInfoParameterData metadata_subblock.demixing_info_parameter_data with
      | .error e => .error e
      | .ok d => .ok (dur, .demixing d))
  | .kParameterDefinitionReconGain =>
    if 1 < subblock_index then
      .error "There should be only one subblock for recon gain info."
    else
      (match id_to_labeled_frame, id_to_labeled_decoded_frame with
      | some frames, some decoded =>
        (match GenerateReconGainSubblock override_computed_recon_gains cg frames decoded
            per_id_metadata.num_layers per_id_metadata.recon_gain_is_present_flags
            per_id_metadata.channel_numbers_for_layers
            metadata_subblock.recon_gain_info_parameter_data
            per_id_metadata.audio_element_id with
        | .error e => .error e
        | .ok r => .ok (dur, .reconGain r))
      | _, _ => .error "labeled frame maps are null")
  | .extensionType => .error "Unsupported param definition type"

/-! ### Parameter block assembly -/

/-- Proto `ParameterBlockObuMetadata` fields the generator reads. -/
structure ParameterBlockObuMetadata where
  parameter_id : Nat
  duration : Nat
  constant_subblock_duration : Nat
  num_subblocks : Nat
  start_timestamp : Nat
  subblocks : List MetadataSubblock
  deriving DecidableEq, Repr

/-- Modelled from the spec: the timing module (component C5, an external
contract) assigns consecutive `[start, end)` windows per parameter id and
rejects requested start timestamps that do not match; the state maps each
parameter id to the next expected start (a fresh id starts at 0). -/
abbrev TimingState : Type := List (Nat × Nat)

/-- Modelled from the spec: `GlobalTimingModule::GetNextParameterBlockTimestamps`. -/
def GetNextParameterBlockTimestamps (timing : TimingState)
    (parameter_id requested_start duration : Nat) :
    Except String (Nat × Nat × TimingState) :=
  let expected := (List.lookup parameter_id timing).getD 0
  if requested_start ≠ expected then
    .error "timestamps do not match"
  else
    .ok (expected, expected + duration,
      (parameter_id, expected + duration) ::
        timing.filter (fun e => e.1 ≠ parameter_id))

/-- Ceiling division used to derive a subblock count from a duration and a
constant subblock duration. -/
def ceilOfDiv (a b : Nat) : Nat := (a + b - 1) / b

/-- Modelled from the spec: `ParameterBlockObu::InitializeSubblocks` (the OBU
class is not under src/). Per section 4.10 step 3, in mode 1 the declared
subblock count must agree with the count derivable from
`(duration, constant_subblock_duration)`; a zero constant subblock duration
means per-subblock durations are supplied and the declared count stands. -/
def initializeSubblocksMode1 (duration constant_subblock_duration num_subblocks : Nat) :
    Except String Nat :=
  if constant_subblock_duration = 0 then .ok num_subblocks
  else if num_subblocks ≠ ceilOfDiv duration constant_subblock_duration then
    .error "subblock count disagreement"
  else .ok num_subblocks

/-- Modelled from the spec: mode-0 `InitializeSubblocks()` derives everything
from the parameter definition. -/
def initializeSubblocksMode0 (d : ParamDefinitionModel) : Nat :=
  if d.constant_subblock_duration = 0 then d.num_subblocks
  else ceilOfDiv d.duration d.constant_subblock_duration

/-- The assembled parameter block with side timing data
(`ParameterBlockWithData`). -/
structure ParameterBlockWithData where
  parameter_id : Nat
  start_timestamp : Nat
  end_timestamp : Nat
  constant_subblock_duration : Nat
  subblocks : List (Option Nat × ParamData)
  deriving DecidableEq, Repr

/-- `PopulateCommonFields` (lines 476-513) fused with `PopulateSubblocks`
(lines 515-546): resolve the duration from the definition or the metadata,
obtain timestamps, initialise the subblock count, check it against the
metadata subblock list, and build every subblock. -/
def generateOneParameterBlock (override_computed_recon_gains : Bool)
    (cg : ComputeGainFn)
    (id_to_labeled_frame id_to_labeled_decoded_frame : Option IdLabeledFrameMap)
    (parameter_id_to_metadata : List (Nat × PerIdParameterMetadata))
    (timing : TimingState) (m : ParameterBlockObuMetadata) :
    Except String (ParameterBlockWithData × TimingState) :=
  match List.lookup m.parameter_id parameter_id_to_metadata with
  | none => .error "no per-id parameter metadata"
  | some per_id_metadata =>
    let pd := per_id_metadata.param_definition
    let duration := if pd.param_definition_mode = 1 then m.duration else pd.duration
    match GetNextParameterBlockTimestamps timing m.parameter_id m.start_timestamp duration with
    | .error e => .error e
    | .ok (start_ts, end_ts, timing') =>
      let init : Except String (Nat × Nat) :=
        if pd.param_definition_mode = 1 then
          match initializeSubblocksMode1 m.duration m.constant_subblock_duration
              m.num_subblocks with
          | .error e => .error e
          | .ok n => .ok (n, m.constant_subblock_duration)
        else .ok (initializeSubblocksMode0 pd, pd.constant_subblock_duration)
      match init with
      | .error e => .error e
      | .ok (num_subblocks, csd) =>
        let include_subblock_duration := pd.param_definition_mode = 1 ∧ csd = 0
        if num_subblocks ≠ m.subblocks.length then
          .error "unexpected number of subblocks"
        else
          match (List.range num_subblocks).mapM
              (fun i => GenerateParameterBlockSubblock override_computed_recon_gains cg
                id_to_labeled_frame id_to_labeled_decoded_frame per_id_metadata
                include_subblock_duration i (m.subblocks.getD i ⟨0, ⟨.animateInvalid,
                  ⟨0⟩, ⟨0, 0⟩, ⟨0, 0, 0, 0⟩⟩, ⟨.invalid, 0⟩, ⟨[]⟩⟩)) with
          | .error e => .error e
          | .ok subs => .ok (⟨m.parameter_id, start_ts, end_ts, csd, subs⟩, timing')

/-- The result of `ParameterBlockGenerator::GenerateParameterBlocks`: the
status, the queue the member list holds afterwards, the timing state, and
the output list (the caller-owned `output_parameter_blocks`). -/
structure GenerateResult where
  status : Except String Unit
  queue : List ParameterBlockObuMetadata
  timing : TimingState
  outputs : List ParameterBlockWithData
  deriving Repr

/-- The record loop of `GenerateParameterBlocks` (lines 666-686): each
record is assembled and appended; the first failure aborts, leaving the
already-produced blocks in the output list. -/
def generateLoop (override_computed_recon_gains : Bool) (cg : ComputeGainFn)
    (id_to_labeled_frame id_to_labeled_decoded_frame : Option IdLabeledFrameMap)
    (parameter_id_to_metadata : List (Nat × PerIdParameterMetadata)) :
    List ParameterBlockObuMetadata → TimingState → List ParameterBlockWithData →
    Except String Unit × TimingState × List ParameterBlockWithData
  | [], timing, outs => (.ok (), timing, outs)
  | m :: rest, timing, outs =>
    match generateOneParameterBlock override_computed_recon_gains cg
        id_to_labeled_frame id_to_labeled_decoded_frame
        parameter_id_to_metadata timing m with
    | .error e => (.error e, timing, outs)
    | .ok (block, timing') =>
      generateLoop override_computed_recon_gains cg id_to_labeled_frame
        id_to_labeled_decoded_frame parameter_id_to_metadata rest timing'
        (outs ++ [block])

/-- `ParameterBlockGenerator::GenerateParameterBlocks` (lines 659-694): runs
the record loop over the queued metadata; only when every record succeeded
is the queue cleared (`proto_metadata_list.clear()` at line 691) — the
early `RETURN_IF_NOT_OK` paths leave the queue untouched. -/
def GenerateParameterBlocks (override_computed_recon_gains : Bool) (cg : ComputeGainFn)
    (id_to_labeled_frame id_to_labeled_decoded_frame : Option IdLabeledFrameMap)
    (parameter_id_to_metadata : List (Nat × PerIdParameterMetadata))
    (queue : List ParameterBlockObuMetadata) (timing : TimingState)
    (outputs : List ParameterBlockWithData) : GenerateResult :=
  match generateLoop override_computed_recon_gains cg id_to_labeled_frame
      id_to_labeled_decoded_frame parameter_id_to_metadata queue timing outputs with
  | (.ok (), timing', outs') => ⟨.ok (), [], timing', outs'⟩
  | (.error e, timing', outs') => ⟨.error e, queue, timing', outs'⟩

/-! ### Registry initialisation -/

/-- The fields `GetPerIdMetadata` reads from an `AudioElementWithData` whose
OBU holds a `ScalableChannelLayoutConfig`. -/
structure AudioElementModel where
  num_layers : Nat
  recon_gain_is_present_flags : List Bool
  channel_numbers_for_layers : List ChannelNumbers
  deriving DecidableEq, Repr

/-- The registry state `parameter_id_to_metadata_` (an association list;
insertion appends, lookup takes the first hit). -/
abbrev RegistryState : Type := List (Nat × PerIdParameterMetadata)

/-- `GetPerIdMetadata` (lines 50-93). The C++ function writes through its
out-parameter progressively, so the model returns the status together with
the value the out-parameter holds afterwards: on the missing-audio-element
failure the metadata has already been overwritten with the partially filled
snapshot, and on the missing-type failure it still holds its
value-initialised default. -/
def GetPerIdMetadata (audio_elements : List (Nat × AudioElementModel))
    (d : ParamDefinitionModel) : Except String Unit × PerIdParameterMetadata :=
  match d.ptype with
  | none => (.error "param_definition_type has no value", defaultPerIdMetadata)
  | some t =>
    let base : PerIdParameterMetadata := ⟨t, d, 0, [], [], 0⟩
    if t = .kParameterDefinitionReconGain then
      match List.lookup d.audio_element_id audio_elements with
      | none => (.error "Audio Element ID associated with the recon gain parameter not found", base)
      | some ae =>
        (.ok (), { base with
          audio_element_id := d.audio_element_id,
          num_layers := ae.num_layers,
          recon_gain_is_present_flags :=
            (List.range ae.num_layers).map (fun l => ae.recon_gain_is_present_flags.getD l false),
          channel_numbers_for_layers := ae.channel_numbers_for_layers })
    else (.ok (), base)

/-- Whether a stored parameter definition type passes the check at
lines 588-596. -/
def supportedType (t : ParamDefinitionType) : Bool :=
  t = .kParameterDefinitionDemixing ∨ t = .kParameterDefinitionMixGain ∨
    t = .kParameterDefinitionReconGain

/-- The loop body of `ParameterBlockGenerator::Initialize` (lines 578-597):
insert a fresh entry (computing its metadata) or keep the existing one, then
check the stored type. On error the state mutated so far is kept, matching
the in-place `flat_hash_map` mutation of the C++. -/
def InitializeLoop (audio_elements : List (Nat × AudioElementModel)) :
    List (Nat × ParamDefinitionModel) → RegistryState → Except String Unit × RegistryState
  | [], st => (.ok (), st)
  | (parameter_id, d) :: rest, st =>
    match List.lookup parameter_id st with
    | some meta =>
      if supportedType meta.param_definition_type then
        InitializeLoop audio_elements rest st
      else (.error "Unsupported parameter type", st)
    | none =>
      match GetPerIdMetadata audio_elements d with
      | (.error e, partial_meta) => (.error e, st ++ [(parameter_id, partial_meta)])
      | (.ok (), meta) =>
        if supportedType meta.param_definition_type then
          InitializeLoop audio_elements rest (st ++ [(parameter_id, meta)])
        else (.error "Unsupported parameter type", st ++ [(parameter_id, meta)])

/-- `ParameterBlockGenerator::Initialize` (lines 573-600). -/
def Initialize (audio_elements : List (Nat × AudioElementModel))
    (param_definitions : List (Nat × ParamDefinitionModel))
    (st : RegistryState) : Except String Unit × RegistryState :=
  InitializeLoop audio_elements param_definitions st

/-! ### ADM wav splicer (component C3) -/

/-- The chunk index produced by the BW64 reader: the `fmt ` descriptor
fields the splicer consumes plus the `(chunk id, payload offset, declared
payload size)` triples. Modelled from the spec: `Bw64Reader` and
`SpliceWavFilesFromAdm` live under `iamf/cli/adm_to_user_metadata/adm/`,
which is not under src/ (only their test is); sections 4.1 and 4.3 specify
them. -/
structure Bw64ReaderModel where
  num_channels : Nat
  bits_per_sample : Nat
  block_align : Nat
  chunks : List (String × Nat × Nat)
  deriving DecidableEq, Repr

/-- One spliced output: the per-object channel count and data payload
(the emitted WAV header is canonical and recomputed from these). -/
structure WavOut where
  num_channels : Nat
  data : List Nat
  deriving DecidableEq, Repr

/-- Bytes per sample, `ceil(bits / 8)`. -/
def bytesPerSample (bits : Nat) : Nat := (bits + 7) / 8

/-- The data payload of one object: for every input frame, the bytes of the
channels assigned to the object, preserving channel order. -/
def objectData (fileBytes : List Nat) (dataOffset blockAlign bps numFrames chOffset chCount : Nat) :
    List Nat :=
  (List.range numFrames).flatMap fun f =>
    (List.range (chCount * bps)).map fun b =>
      fileBytes.getD (dataOffset + f * blockAlign + chOffset * bps + b) 0

/-- Builds each object output, walking the objects with a running channel
offset. -/
def spliceObjects (fileBytes : List Nat) (dataOffset blockAlign bps numFrames : Nat) :
    List Nat → Nat → List WavOut
  | [], _ => []
  | m :: rest, chOffset =>
    ⟨m, objectData fileBytes dataOffset blockAlign bps numFrames chOffset m⟩ ::
      spliceObjects fileBytes dataOffset blockAlign bps numFrames rest (chOffset + m)

/-- Modelled from the spec: `SpliceWavFilesFromAdm` (section 4.3). Fails when
the `data` chunk is missing, when its declared size is not a multiple of the
block align, when it extends past the end of file (rule 5), or when the
track-UID total does not match the channel count (step 1); on any failure no
output is produced. `objects` is the ordered object list, each an ordered
track-UID list. -/
def SpliceWavFilesFromAdm (reader : Bw64ReaderModel) (fileBytes : List Nat)
    (objects : List (List String)) : Except String (List WavOut) :=
  match (reader.chunks.filter (fun c => c.1 = "data")).head? with
  | none => .error "missing data chunk"
  | some (_, dataOffset, dataSize) =>
    if dataSize % reader.block_align ≠ 0 then
      .error "data chunk size is not a multiple of the block align"
    else if fileBytes.length < dataOffset + dataSize then
      .error "data chunk extends past the end of the file"
    else if (objects.map List.length).sum ≠ reader.num_channels then
      .error "track UID count does not match the channel count"
    else
      .ok (spliceObjects fileBytes dataOffset reader.block_align
        (bytesPerSample reader.bits_per_sample)
        (dataSize / reader.block_align) (objects.map List.length) 0)

end Iamf

namespace Iamf

/-- Closed form of the surround loop: visiting surrounds `s .. s+fuel-1`
fails iff some visited value exceeds 7, and otherwise emits the per-threshold
label groups for each threshold inside the visited window. -/
def surroundSpec (accS s fuel : Nat) : Except String (List Label) :=
  if 0 < fuel ∧ 8 < s + fuel then .error "Unsupported number of surround channels"
  else .ok
    ((if accS = 1 ∧ s ≤ 2 ∧ 2 < s + fuel then [.kDemixedR2] else [])
      ++ (if s ≤ 3 ∧ 3 < s + fuel then [.kDemixedL3, .kDemixedR3] else [])
      ++ (if s ≤ 5 ∧ 5 < s + fuel then [.kDemixedLs5, .kDemixedRs5] else [])
      ++ (if s ≤ 7 ∧ 7 < s + fuel then
            [.kDemixedL7, .kDemixedR7, .kDemixedLrs7, .kDemixedRrs7] else []))

theorem surroundSpec_zero (accS s : Nat) : surroundSpec accS s 0 = .ok [] := by
  unfold surroundSpec
  rw [if_neg (by omega), if_neg (by omega), if_neg (by omega), if_neg (by omega),
    if_neg (by omega)]
  rfl

theorem surroundLoop_eq_spec (accS : Nat) :
    ∀ fuel s, surroundLoop accS s fuel = surroundSpec accS s fuel := by
  intro fuel
  induction fuel with
  | zero =>
    intro s
    rw [surroundSpec_zero]
    rfl
  | succ n ih =>
    intro s
    show (match stepSurround accS s with
      | Except.error e => Except.error e
      | Except.ok here =>
        match surroundLoop accS (s + 1) n with
        | Except.error e => Except.error e
        | Except.ok rest => Except.ok (here ++ rest)) = surroundSpec accS s (n + 1)
    rw [ih]
    rcases s with _|_|_|_|_|_|_|_|s
    · -- s = 0
      show (match surroundSpec accS 1 n with
        | Except.error e => Except.error e
        | Except.ok rest => Except.ok ([] ++ rest)) = surroundSpec accS 0 (n + 1)
      unfold surroundSpec
      by_cases hc : 0 < n ∧ 8 < 1 + n
      · rw [if_pos hc]
        conv_rhs => rw [if_pos (show 0 < n + 1 ∧ 8 < 0 + (n + 1) by omega)]
      · rw [if_neg hc]
        conv_rhs => rw [if_neg (show ¬(0 < n + 1 ∧ 8 < 0 + (n + 1)) by omega)]
        refine congrArg Except.ok ?_
        simp only [List.append_assoc, List.nil_append]
        refine congrArg₂ (· ++ ·) ?_ (congrArg₂ (· ++ ·) ?_ (congrArg₂ (· ++ ·) ?_ ?_)) <;>
          exact if_congr (by omega) rfl rfl
    · -- s = 1
      show (match surroundSpec accS 2 n with
        | Except.error e => Except.error e
        | Except.ok rest => Except.ok ([] ++ rest)) = surroundSpec accS 1 (n + 1)
      unfold surroundSpec
      by_cases hc : 0 < n ∧ 8 < 2 + n
      · rw [if_pos hc]
        conv_rhs => rw [if_pos (show 0 < n + 1 ∧ 8 < 1 + (n + 1) by omega)]
      · rw [if_neg hc]
        conv_rhs => rw [if_neg (show ¬(0 < n + 1 ∧ 8 < 1 + (n + 1)) by omega)]
        refine congrArg Except.ok ?_
        simp only [List.append_assoc, List.nil_append]
        refine congrArg₂ (· ++ ·) ?_ (congrArg₂ (· ++ ·) ?_ (congrArg₂ (· ++ ·) ?_ ?_)) <;>
          exact if_congr (by omega) rfl rfl
    · -- s = 2
      show (match surroundSpec accS 3 n with
        | Except.error e => Except.error e
        | Except.ok rest =>
          Except.ok ((if accS = 1 then [.kDemixedR2] else []) ++ rest)) =
        surroundSpec accS 2 (n + 1)
      unfold surroundSpec
      by_cases hc : 0 < n ∧ 8 < 3 + n
      · rw [if_pos hc]
        conv_rhs => rw [if_pos (show 0 < n + 1 ∧ 8 < 2 + (n + 1) by omega)]
      · rw [if_neg hc]
        conv_rhs => rw [if_neg (show ¬(0 < n + 1 ∧ 8 < 2 + (n + 1)) by omega)]
        refine congrArg Except.ok ?_
        rw [if_neg (show ¬(accS = 1 ∧ 3 ≤ 2 ∧ 2 < 3 + n) by omega)]
        simp only [List.append_assoc, List.nil_append]
        refine congrArg₂ (· ++ ·) ?_ (congrArg₂ (· ++ ·) ?_ (congrArg₂ (· ++ ·) ?_ ?_)) <;>
          exact if_congr (by omega) rfl rfl
    · -- s = 3
      show (match surroundSpec accS 4 n with
        | Except.error e => Except.error e
        | Except.ok rest => Except.ok ([Label.kDemixedL3, Label.kDemixedR3] ++ rest)) =
        surroundSpec accS 3 (n + 1)
      unfold surroundSpec
      by_cases hc : 0 < n ∧ 8 < 4 + n
      · rw [if_pos hc]
        conv_rhs => rw [if_pos (show 0 < n + 1 ∧ 8 < 3 + (n + 1) by omega)]
      · rw [if_neg hc]
        conv_rhs => rw [if_neg (show ¬(0 < n + 1 ∧ 8 < 3 + (n + 1)) by omega)]
        refine congrArg Except.ok ?_
        rw [if_neg (show ¬(accS = 1 ∧ 4 ≤ 2 ∧ 2 < 4 + n) by omega),
          if_neg (show ¬(4 ≤ 3 ∧ 3 < 4 + n) by omega),
          if_neg (show ¬(accS = 1 ∧ 3 ≤ 2 ∧ 2 < 3 + (n + 1)) by omega),
          if_pos (show 3 ≤ 3 ∧ 3 < 3 + (n + 1) by omega)]
        simp only [List.append_assoc, List.nil_append, List.cons_append]
        refine congrArg _ (congrArg _ ?_)
        refine congrArg₂ (· ++ ·) ?_ ?_ <;> exact if_congr (by omega) rfl rfl
    · -- s = 4
      show (match surroundSpec accS 5 n with
        | Except.error e => Except.error e
        | Except.ok rest => Except.ok ([] ++ rest)) = surroundSpec accS 4 (n + 1)
      unfold surroundSpec
      by_cases hc : 0 < n ∧ 8 < 5 + n
      · rw [if_pos hc]
        conv_rhs => rw [if_pos (show 0 < n + 1 ∧ 8 < 4 + (n + 1) by omega)]
      · rw [if_neg hc]
        conv_rhs => rw [if_neg (show ¬(0 < n + 1 ∧ 8 < 4 + (n + 1)) by omega)]
        refine congrArg Except.ok ?_
        rw [if_neg (show ¬(accS = 1 ∧ 5 ≤ 2 ∧ 2 < 5 + n) by omega),
          if_neg (show ¬(5 ≤ 3 ∧ 3 < 5 + n) by omega),
          if_neg (show ¬(accS = 1 ∧ 4 ≤ 2 ∧ 2 < 4 + (n + 1)) by omega),
          if_neg (show ¬(4 ≤ 3 ∧ 3 < 4 + (n + 1)) by omega)]
        simp only [List.append_assoc, List.nil_append]
        refine congrArg₂ (· ++ ·) ?_ ?_ <;> exact if_congr (by omega) rfl rfl
    · -- s = 5
      show (match surroundSpec accS 6 n with
        | Except.error e => Except.error e
        | Except.ok rest => Except.ok ([Label.kDemixedLs5, Label.kDemixedRs5] ++ rest)) =
        surroundSpec accS 5 (n + 1)
      unfold surroundSpec
      by_cases hc : 0 < n ∧ 8 < 6 + n
      · rw [if_pos hc]
        conv_rhs => rw [if_pos (show 0 < n + 1 ∧ 8 < 5 + (n + 1) by omega)]
      · rw [if_neg hc]
        conv_rhs => rw [if_neg (show ¬(0 < n + 1 ∧ 8 < 5 + (n + 1)) by omega)]
        refine congrArg Except.ok ?_
        rw [if_neg (show ¬(accS = 1 ∧ 6 ≤ 2 ∧ 2 < 6 + n) by omega),
          if_neg (show ¬(6 ≤ 3 ∧ 3 < 6 + n) by omega),
          if_neg (show ¬(6 ≤ 5 ∧ 5 < 6 + n) by omega),
          if_neg (show ¬(accS = 1 ∧ 5 ≤ 2 ∧ 2 < 5 + (n + 1)) by omega),
          if_neg (show ¬(5 ≤ 3 ∧ 3 < 5 + (n + 1)) by omega),
          if_pos (show 5 ≤ 5 ∧ 5 < 5 + (n + 1) by omega)]
        simp only [List.append_assoc, List.nil_append, List.cons_append]
        refine congrArg _ (congrArg _ ?_)
        exact if_congr (by omega) rfl rfl
    · -- s = 6
      show (match surroundSpec accS 7 n with
        | Except.error e => Except.error e
        | Except.ok rest => Except.ok ([] ++ rest)) = surroundSpec accS 6 (n + 1)
      unfold surroundSpec
      by_cases hc : 0 < n ∧ 8 < 7 + n
      · rw [if_pos hc]
        conv_rhs => rw [if_pos (show 0 < n + 1 ∧ 8 < 6 + (n + 1) by omega)]
      · rw [if_neg hc]
        conv_rhs => rw [if_neg (show ¬(0 < n + 1 ∧ 8 < 6 + (n + 1)) by omega)]
        refine congrArg Except.ok ?_
        rw [if_neg (show ¬(accS = 1 ∧ 7 ≤ 2 ∧ 2 < 7 + n) by omega),
          if_neg (show ¬(7 ≤ 3 ∧ 3 < 7 + n) by omega),
          if_neg (show ¬(7 ≤ 5 ∧ 5 < 7 + n) by omega),
          if_neg (show ¬(accS = 1 ∧ 6 ≤ 2 ∧ 2 < 6 + (n + 1)) by omega),
          if_neg (show ¬(6 ≤ 3 ∧ 3 < 6 + (n + 1)) by omega),
          if_neg (show ¬(6 ≤ 5 ∧ 5 < 6 + (n + 1)) by omega)]
        simp only [List.append_assoc, List.nil_append]
        exact if_congr (by omega) rfl rfl
    · -- s = 7
      show (match surroundSpec accS 8 n with
        | Except.error e => Except.error e
        | Except.ok rest =>
          Except.ok ([Label.kDemixedL7, Label.kDemixedR7, Label.kDemixedLrs7,
            Label.kDemixedRrs7] ++ rest)) = surroundSpec accS 7 (n + 1)
      unfold surroundSpec
      by_cases hc : 0 < n ∧ 8 < 8 + n
      · rw [if_pos hc]
        conv_rhs => rw [if_pos (show 0 < n + 1 ∧ 8 < 7 + (n + 1) by omega)]
      · rw [if_neg hc]
        conv_rhs => rw [if_neg (show ¬(0 < n + 1 ∧ 8 < 7 + (n + 1)) by omega)]
        refine congrArg Except.ok ?_
        rw [if_neg (show ¬(accS = 1 ∧ 8 ≤ 2 ∧ 2 < 8 + n) by omega),
          if_neg (show ¬(8 ≤ 3 ∧ 3 < 8 + n) by omega),
          if_neg (show ¬(8 ≤ 5 ∧ 5 < 8 + n) by omega),
          if_neg (show ¬(8 ≤ 7 ∧ 7 < 8 + n) by omega),
          if_neg (show ¬(accS = 1 ∧ 7 ≤ 2 ∧ 2 < 7 + (n + 1)) by omega),
          if_neg (show ¬(7 ≤ 3 ∧ 3 < 7 + (n + 1)) by omega),
          if_neg (show ¬(7 ≤ 5 ∧ 5 < 7 + (n + 1)) by omega),
          if_pos (show 7 ≤ 7 ∧ 7 < 7 + (n + 1) by omega)]
        simp only [List.append_assoc, List.nil_append, List.append_nil]
    · -- s ≥ 8
      have hstep : stepSurround accS (s + 8) =
          Except.error "Unsupported number of surround channels" := by
        unfold stepSurround
        rw [if_neg (by omega), if_neg (by omega), if_neg (by omega), if_neg (by omega),
          if_pos (by omega)]
      rw [hstep]
      unfold surroundSpec
      conv_rhs => rw [if_pos (show 0 < n + 1 ∧ 8 < s + 8 + (n + 1) by omega)]

end Iamf

namespace Iamf

/-- The demixed-channel discovery rule as claim C2 states it (section 4.7 of
the spec): per-threshold emissions, with failure whenever the layer surround
exceeds 7. -/
def claimDemixedChannels (acc layer : ChannelNumbers) : Except String (List Label) :=
  if 7 < layer.surround then .error "Unsupported number of surround channels"
  else .ok
    (((if acc.surround = 1 ∧ 2 ≤ layer.surround then [.kDemixedR2] else [])
      ++ (if acc.surround < 3 ∧ 3 ≤ layer.surround then [.kDemixedL3, .kDemixedR3] else [])
      ++ (if acc.surround < 5 ∧ 5 ≤ layer.surround then [.kDemixedLs5, .kDemixedRs5] else [])
      ++ (if acc.surround < 7 ∧ 7 ≤ layer.surround then
            [.kDemixedL7, .kDemixedR7, .kDemixedLrs7, .kDemixedRrs7] else []))
      ++ heightLabels acc layer)

/-- Claim C2 amended: as `claimDemixedChannels`, except that an unsupported
surround count only fails when the loop actually reaches it, i.e. when the
layer surround also exceeds the accumulated surround. -/
def amendedDemixedChannels (acc layer : ChannelNumbers) : Except String (List Label) :=
  if acc.surround < layer.surround ∧ 7 < layer.surround then
    .error "Unsupported number of surround channels"
  else .ok
    (((if acc.surround = 1 ∧ 2 ≤ layer.surround then [.kDemixedR2] else [])
      ++ (if acc.surround < 3 ∧ 3 ≤ layer.surround then [.kDemixedL3, .kDemixedR3] else [])
      ++ (if acc.surround < 5 ∧ 5 ≤ layer.surround then [.kDemixedLs5, .kDemixedRs5] else [])
      ++ (if acc.surround < 7 ∧ 7 ≤ layer.surround then
            [.kDemixedL7, .kDemixedR7, .kDemixedLrs7, .kDemixedRrs7] else []))
      ++ heightLabels acc layer)

/-- Claim C2, amended: `FindDemixedChannels` emits exactly the section 4.7
label groups per crossed threshold (plus the height rules), and fails on
surround counts above 7 exactly when the layer surround exceeds the
accumulated surround. -/
theorem FindDemixedChannels_eq_amended (acc layer : ChannelNumbers) :
    FindDemixedChannels acc layer = amendedDemixedChannels acc layer := by
  unfold FindDemixedChannels
  rw [surroundLoop_eq_spec]
  unfold surroundSpec amendedDemixedChannels
  by_cases hc : 0 < layer.surround - acc.surround ∧
      8 < acc.surround + 1 + (layer.surround - acc.surround)
  · rw [if_pos hc]
    conv_rhs => rw [if_pos (show acc.surround < layer.surround ∧ 7 < layer.surround by omega)]
  · rw [if_neg hc]
    conv_rhs => rw [if_neg (show ¬(acc.surround < layer.surround ∧ 7 < layer.surround) by omega)]
    refine congrArg Except.ok ?_
    refine congrArg₂ (· ++ ·) ?_ rfl
    refine congrArg₂ (· ++ ·) (congrArg₂ (· ++ ·) (congrArg₂ (· ++ ·) ?_ ?_) ?_) ?_ <;>
      exact if_congr (by omega) rfl rfl

/-- Claim C2 counterexample: with accumulated surround 8 and layer surround 8
the code succeeds (emitting nothing), while the claim demands failure for any
surround greater than 7. -/
theorem findDemixedChannels_gt7_counterexample :
    FindDemixedChannels ⟨8, 0, 0⟩ ⟨8, 0, 0⟩ = .ok [] ∧
      claimDemixedChannels ⟨8, 0, 0⟩ ⟨8, 0, 0⟩ =
        .error "Unsupported number of surround channels" := by
  constructor
  · rfl
  · rfl

end Iamf

namespace Iamf

theorem bitPosition_lt_12 (l : Label) : bitPosition l < 12 := by
  cases l <;> decide

theorem convertFold_flag_mono (entries : List (Label × ℚ)) :
    ∀ (st : List Nat × Nat) (i : Nat), st.2.testBit i = true →
      (entries.foldl convertStep st).2.testBit i = true := by
  induction entries with
  | nil => intro st i h; exact h
  | cons e rest ih =>
    intro st i h
    rw [List.foldl_cons]
    refine ih _ i ?_
    show ((st.2 ||| (1 <<< bitPosition e.1)).testBit i) = true
    rw [Nat.testBit_or, h]
    rfl

theorem convertFold_untouched (entries : List (Label × ℚ)) :
    ∀ (st : List Nat × Nat) (i : Nat), (∀ e ∈ entries, bitPosition e.1 ≠ i) →
      (entries.foldl convertStep st).1.getD i 0 = st.1.getD i 0 := by
  induction entries with
  | nil => intro st i _; rfl
  | cons e rest ih =>
    intro st i h
    rw [List.foldl_cons, ih _ i (fun x hx => h x (List.mem_cons_of_mem e hx))]
    show (st.1.set (bitPosition e.1) (gainByte e.2)).getD i 0 = st.1.getD i 0
    rw [List.getD_eq_getElem?_getD, List.getElem?_set_ne (h e (List.mem_cons_self e rest)),
      ← List.getD_eq_getElem?_getD]

theorem convertFold_flag_testBit (entries : List (Label × ℚ)) :
    ∀ (st : List Nat × Nat) (i : Nat),
      (entries.foldl convertStep st).2.testBit i =
        (st.2.testBit i || entries.any fun e => decide (bitPosition e.1 = i)) := by
  induction entries with
  | nil => intro st i; simp
  | cons e rest ih =>
    intro st i
    rw [List.foldl_cons, ih]
    show ((st.2 ||| (1 <<< bitPosition e.1)).testBit i || _) = _
    rw [Nat.testBit_or, Nat.shiftLeft_eq, one_mul, Nat.testBit_two_pow]
    simp only [List.any_cons, Bool.or_assoc]

end Iamf

namespace Iamf

theorem convertFold_write (v : Nat) :
    ∀ (entries : List (Label × ℚ)) (st : List Nat × Nat) (i : Nat),
      (∃ e ∈ entries, bitPosition e.1 = i) →
      (∀ e ∈ entries, bitPosition e.1 = i → gainByte e.2 = v) →
      i < st.1.length →
      (entries.foldl convertStep st).1.getD i 0 = v := by
  intro entries
  induction entries with
  | nil =>
    intro st i hex _ _
    rcases hex with ⟨e, he, _⟩
    exact absurd he (List.not_mem_nil e)
  | cons e rest ih =>
    intro st i hex hall hi
    rw [List.foldl_cons]
    by_cases hbe : bitPosition e.1 = i
    · by_cases hrest : ∃ e' ∈ rest, bitPosition e'.1 = i
      · exact ih _ i hrest (fun x hx hxx => hall x (List.mem_cons_of_mem e hx) hxx)
          (by show i < (st.1.set (bitPosition e.1) (gainByte e.2)).length
              rw [List.length_set]
              exact hi)
      · rw [convertFold_untouched rest _ i (fun x hx hxx => hrest ⟨x, hx, hxx⟩)]
        show (st.1.set (bitPosition e.1) (gainByte e.2)).getD i 0 = v
        rw [hbe, List.getD_eq_getElem?_getD, List.getElem?_set_eq_of_lt _ hi,
          ← hall e (List.mem_cons_self e rest) hbe]
        rfl
    · rcases hex with ⟨e', he', h'⟩
      rcases List.mem_cons.mp he' with rfl | htail
      · exact absurd h' hbe
      · exact ih _ i ⟨e', htail, h'⟩ (fun x hx hxx => hall x (List.mem_cons_of_mem e hx) hxx)
          (by show i < (st.1.set (bitPosition e.1) (gainByte e.2)).length
              rw [List.length_set]
              exact hi)

theorem gainByte_half : gainByte (1/2) = 127 := by
  unfold gainByte
  rw [show (Int.floor ((1/2 : ℚ) * 255)) = 127 from by norm_num]
  rfl

theorem gainByte_quarter : gainByte (1/4) = 63 := by
  unfold gainByte
  rw [show (Int.floor ((1/4 : ℚ) * 255)) = 63 from by norm_num]
  rfl

theorem gainByte_one : gainByte 1 = 255 := by
  unfold gainByte
  rw [show (Int.floor ((1 : ℚ) * 255)) = 255 from by norm_num]
  rfl

/-- Claim C1 counterexample: for the map with gains 1/2 on DemixedL3 and 1/4
on DemixedL7 (both labels have bit position 0) the code leaves byte 63 =
trunc(0.25 * 255) at position 0, while the claim demands round(0.5 * 255) =
128 and round(0.25 * 255) = 64 stored there; neither rounded value is
stored, and the later entry overwrote the earlier one. -/
theorem convertReconGains_truncation_counterexample :
    (ConvertReconGainsAndFlags [(Label.kDemixedL3, 1/2), (Label.kDemixedL7, 1/4)]).1.getD 0 0
        = 63 ∧
      (ConvertReconGainsAndFlags [(Label.kDemixedL3, 1/2), (Label.kDemixedL7, 1/4)]).2 = 1 ∧
      round ((1/2 : ℚ) * 255) = (128 : ℤ) ∧
      round ((1/4 : ℚ) * 255) = (64 : ℤ) ∧
      bitPosition Label.kDemixedL3 = 0 ∧ bitPosition Label.kDemixedL7 = 0 := by
  have hcr : ConvertReconGainsAndFlags [(Label.kDemixedL3, 1/2), (Label.kDemixedL7, 1/4)] =
      ([63, 0, 0, 0, 0, 0, 0, 0, 0, 0, 0, 0], 1) := by
    show (((List.replicate 12 0).set 0 (gainByte (1/2))).set 0 (gainByte (1/4)),
      (0 ||| 1 <<< 0) ||| 1 <<< 0) = _
    rw [gainByte_half, gainByte_quarter]
    decide
  refine ⟨by rw [hcr]; rfl, by rw [hcr], ?_, ?_, rfl, rfl⟩
  · rw [round_eq]
    norm_num
  · rw [round_eq]
    norm_num

/-- Claim C1 amended: for every demixed channel label with computed recon
gain g in [0, 1], provided no OTHER entry of the map shares its bit position
(every entry at that position is this very entry), `ConvertReconGainsAndFlags`
stores the byte trunc(g * 255) (a byte value) at that label's fixed bit
position and sets the corresponding flag bit by OR-ing `1 << bit_position`.
Other entries of the map may collide among themselves. -/
theorem convertReconGains_stores_truncated_gain (entries : List (Label × ℚ))
    (label : Label) (g : ℚ) (hmem : (label, g) ∈ entries)
    (hsole : ∀ e ∈ entries, bitPosition e.1 = bitPosition label → e = (label, g))
    (h0 : 0 ≤ g) (h1 : g ≤ 1) :
    (ConvertReconGainsAndFlags entries).1.getD (bitPosition label) 0 = gainByte g ∧
      (ConvertReconGainsAndFlags entries).2.testBit (bitPosition label) = true ∧
      gainByte g ≤ 255 := by
  refine ⟨?_, ?_, ?_⟩
  · refine convertFold_write (gainByte g) entries (List.replicate 12 0, 0)
      (bitPosition label) ⟨(label, g), hmem, rfl⟩ ?_ ?_
    · intro e he hbe
      rw [hsole e he hbe]
    · rw [List.length_replicate]
      exact bitPosition_lt_12 label
  · show (ConvertReconGainsAndFlags entries).2.testBit (bitPosition label) = true
    unfold ConvertReconGainsAndFlags
    rw [convertFold_flag_testBit, Nat.zero_testBit, Bool.false_or]
    exact List.any_eq_true.mpr ⟨(label, g), hmem, decide_eq_true rfl⟩
  · have hfloor : Int.floor (g * 255) ≤ 255 := by
      calc Int.floor (g * 255) ≤ Int.floor ((1 : ℚ) * 255) := by
            exact Int.floor_le_floor (by nlinarith)
        _ = 255 := by norm_num
    exact Int.toNat_le.mpr hfloor

/-- Witness for the amended claim C1 at the stereo-to-7.x map: DemixedL3 and
DemixedL7 collide on bit 0, but DemixedLs5 is alone on bit 3, so its byte
and flag bit are still stored as claimed. -/
theorem convertReconGains_stores_truncated_gain_witness :
    (ConvertReconGainsAndFlags [(Label.kDemixedL3, 1), (Label.kDemixedR3, 1),
        (Label.kDemixedLs5, 1), (Label.kDemixedRs5, 1), (Label.kDemixedL7, 1),
        (Label.kDemixedR7, 1), (Label.kDemixedLrs7, 1), (Label.kDemixedRrs7, 1)]).1.getD
        (bitPosition Label.kDemixedLs5) 0 = gainByte 1 ∧
      (ConvertReconGainsAndFlags [(Label.kDemixedL3, 1), (Label.kDemixedR3, 1),
        (Label.kDemixedLs5, 1), (Label.kDemixedRs5, 1), (Label.kDemixedL7, 1),
        (Label.kDemixedR7, 1), (Label.kDemixedLrs7, 1), (Label.kDemixedRrs7, 1)]).2.testBit
        (bitPosition Label.kDemixedLs5) = true ∧
      gainByte 1 ≤ 255 :=
  convertReconGains_stores_truncated_gain
    [(Label.kDemixedL3, 1), (Label.kDemixedR3, 1), (Label.kDemixedLs5, 1),
      (Label.kDemixedRs5, 1), (Label.kDemixedL7, 1), (Label.kDemixedR7, 1),
      (Label.kDemixedLrs7, 1), (Label.kDemixedRrs7, 1)]
    Label.kDemixedLs5 1 (by simp)
    (by
      intro e he hbe
      simp only [List.mem_cons, List.not_mem_nil, or_false] at he
      rcases he with rfl | rfl | rfl | rfl | rfl | rfl | rfl | rfl
      · exact absurd hbe (by decide)
      · exact absurd hbe (by decide)
      · rfl
      · exact absurd hbe (by decide)
      · exact absurd hbe (by decide)
      · exact absurd hbe (by decide)
      · exact absurd hbe (by decide)
      · exact absurd hbe (by decide))
    (by norm_num) (by norm_num)

/-- Claim C3: the code does not skip an unrecognised label. The `default:`
branch only logs and then falls through, so the label is treated as bit
position 0: for the map with the (never-demixed) label LFE at gain 1 the
call still succeeds but returns flag 1 with byte 255 at position 0, instead
of the zero flag and all-zero vector the claim requires. -/
theorem convertReconGains_unrecognized_label_sets_bit0 :
    ConvertReconGainsAndFlags [(Label.kLFE, 1)] =
        ([255, 0, 0, 0, 0, 0, 0, 0, 0, 0, 0, 0], 1) ∧
      recognizedDemixed Label.kLFE = false := by
  constructor
  · show ((List.replicate 12 0).set 0 (gainByte 1), 0 ||| 1 <<< 0) = _
    rw [gainByte_one]
    decide
  · rfl

end Iamf

namespace Iamf

theorem gainPairs_ok_map_fst (cg : ComputeGainFn) (s d : LabelSamplesMap) :
    ∀ (labels : List Label) (pairs : List (Label × ℚ)),
      gainPairs cg s d labels = .ok pairs → pairs.map Prod.fst = labels := by
  intro labels
  induction labels with
  | nil =>
    intro pairs h
    cases h
    rfl
  | cons l rest ih =>
    intro pairs h
    unfold gainPairs at h
    rcases hcg : cg l s d with e | g <;> rw [hcg] at h
    · cases h
    · rcases hrest : gainPairs cg s d rest with e | tail <;> rw [hrest] at h
      · cases h
      · cases h
        rw [List.map_cons, ih tail hrest]

/-- The demixed channel set of a layer: empty for the base layer, otherwise
discovered from the accumulated and layer channel numbers. -/
def layerDemixedSet (layer_index : Nat) (acc layer : ChannelNumbers) :
    Except String (List Label) :=
  if 0 < layer_index then FindDemixedChannels acc layer else .ok []

/-- Claim C6: with recomputation enabled, whenever
`recon_gain_is_present_flags[k]` disagrees with the non-emptiness of the
demixed channel set of layer k, `ComputeReconGains` does not succeed. -/
theorem computeReconGains_flag_mismatch_fails (cg : ComputeGainFn) (k : Nat)
    (lc ac : ChannelNumbers) (s d : LabelSamplesMap) (flags : List Bool)
    (labels : List Label)
    (hlabels : layerDemixedSet k ac lc = .ok labels)
    (hmis : flags.getD k false ≠ !labels.isEmpty) :
    (ComputeReconGains cg k lc ac s d flags).isOk = false := by
  unfold layerDemixedSet at hlabels
  by_cases hk : 0 < k
  · rw [if_pos hk] at hlabels
    have hred : ComputeReconGains cg k lc ac s d flags =
        (match gainPairs cg s d labels with
        | .error e => .error e
        | .ok lg =>
          if flags.getD k false ≠ !lg.isEmpty then
            Except.error "Mismatch of whether user specified recon gain is present"
          else Except.ok (ConvertReconGainsAndFlags lg)) := by
      unfold ComputeReconGains
      rw [if_pos hk, hlabels]
    rw [hred]
    rcases hgp : gainPairs cg s d labels with e | pairs
    · rfl
    · have hfst := gainPairs_ok_map_fst cg s d labels pairs hgp
      have hiso : pairs.isEmpty = labels.isEmpty := by
        cases pairs
        · cases labels
          · rfl
          · exact absurd hfst (by simp)
        · cases labels
          · exact absurd hfst (by simp)
          · rfl
      show (if flags.getD k false ≠ !pairs.isEmpty then
          Except.error "Mismatch of whether user specified recon gain is present"
        else Except.ok (ConvertReconGainsAndFlags pairs)).isOk = false
      rw [if_pos (by rw [hiso]; exact hmis)]
      rfl
  · rw [if_neg hk] at hlabels
    cases hlabels
    have hred : ComputeReconGains cg k lc ac s d flags =
        (if flags.getD k false ≠ !(([] : List (Label × ℚ)).isEmpty) then
          Except.error "Mismatch of whether user specified recon gain is present"
        else Except.ok (ConvertReconGainsAndFlags [])) := by
      unfold ComputeReconGains
      rw [if_neg hk]
    rw [hred,
      if_pos (show flags.getD k false ≠ !(([] : List (Label × ℚ)).isEmpty) from hmis)]
    rfl

/-- Witness for claim C6 at a concrete input: a two-layer element whose
layer 1 demixes DemixedR2 but whose presence flag for layer 1 is false. -/
theorem computeReconGains_flag_mismatch_fails_witness :
    (ComputeReconGains (fun _ _ _ => .ok 1) 1 ⟨2, 0, 0⟩ ⟨1, 0, 0⟩ [] [] [false, false]).isOk
      = false :=
  computeReconGains_flag_mismatch_fails (fun _ _ _ => .ok 1) 1 ⟨2, 0, 0⟩ ⟨1, 0, 0⟩ [] []
    [false, false] [.kDemixedR2] rfl (by decide)

end Iamf

namespace Iamf

/-- The 16-bit signed range of the narrowing cast. -/
def int16Range (v : Int) : Prop := -32768 ≤ v ∧ v ≤ 32767

theorem Int32ToInt16_ok (v : Int) (h : int16Range v) : Int32ToInt16 v = .ok v := by
  unfold Int32ToInt16
  rw [if_neg (by unfold int16Range at h; omega)]

theorem Int32ToInt16_err (v : Int) (h : ¬int16Range v) :
    Int32ToInt16 v = .error "NumericOverflow: value out of range of int16" := by
  unfold Int32ToInt16
  rw [if_pos (by unfold int16Range at h; omega)]

theorem Uint32ToUint8_ok (v : Nat) (h : v ≤ 255) : Uint32ToUint8 v = .ok v := by
  unfold Uint32ToUint8
  rw [if_neg (by omega)]

theorem Uint32ToUint8_err (v : Nat) (h : ¬v ≤ 255) :
    Uint32ToUint8 v = .error "NumericOverflow: value out of range of uint8" := by
  unfold Uint32ToUint8
  rw [if_pos (by omega)]

/-- Claim C5: `GenerateMixGainSubblock` performs a lossless narrowing cast of
every animation point value to int16 (and of the bezier
control_point_relative_time to uint8): each animation succeeds exactly when
every such value is in range, in-range values (including INT16_MIN and
INT16_MAX) are preserved exactly, and an unrecognised animation type fails. -/
theorem generateMixGainSubblock_lossless :
    (∀ m : MixGainParameterDataMeta, m.animation_type = .animateInvalid →
      (GenerateMixGainSubblock m).isOk = false)
    ∧ (∀ m : MixGainParameterDataMeta, m.animation_type = .animateStep →
      ((GenerateMixGainSubblock m).isOk = true ↔ int16Range m.step.start_point_value)
      ∧ (int16Range m.step.start_point_value →
        GenerateMixGainSubblock m = .ok (.step m.step.start_point_value)))
    ∧ (∀ m : MixGainParameterDataMeta, m.animation_type = .animateLinear →
      ((GenerateMixGainSubblock m).isOk = true ↔
        int16Range m.linear.start_point_value ∧ int16Range m.linear.end_point_value)
      ∧ (int16Range m.linear.start_point_value → int16Range m.linear.end_point_value →
        GenerateMixGainSubblock m =
          .ok (.linear m.linear.start_point_value m.linear.end_point_value)))
    ∧ (∀ m : MixGainParameterDataMeta, m.animation_type = .animateBezier →
      ((GenerateMixGainSubblock m).isOk = true ↔
        int16Range m.bezier.start_point_value ∧ int16Range m.bezier.end_point_value ∧
          int16Range m.bezier.control_point_value ∧
          m.bezier.control_point_relative_time ≤ 255)
      ∧ (int16Range m.bezier.start_point_value → int16Range m.bezier.end_point_value →
        int16Range m.bezier.control_point_value →
        m.bezier.control_point_relative_time ≤ 255 →
        GenerateMixGainSubblock m =
          .ok (.bezier m.bezier.start_point_value m.bezier.end_point_value
            m.bezier.control_point_value m.bezier.control_point_relative_time))) := by
  refine ⟨?_, ?_, ?_, ?_⟩
  · intro m h
    unfold GenerateMixGainSubblock
    rw [h]
    rfl
  · intro m h
    unfold GenerateMixGainSubblock
    rw [h]
    by_cases hr : int16Range m.step.start_point_value
    · rw [Int32ToInt16_ok _ hr]
      exact ⟨⟨fun _ => hr, fun _ => rfl⟩, fun _ => rfl⟩
    · rw [Int32ToInt16_err _ hr]
      exact ⟨⟨fun hx => absurd hx Bool.false_ne_true, fun hc => absurd hc hr⟩,
        fun hc => absurd hc hr⟩
  · intro m h
    unfold GenerateMixGainSubblock
    rw [h]
    by_cases h1 : int16Range m.linear.start_point_value
    · rw [Int32ToInt16_ok _ h1]
      by_cases h2 : int16Range m.linear.end_point_value
      · rw [show (Except.ok m.linear.start_point_value).bind (fun s =>
            (Int32ToInt16 m.linear.end_point_value).map fun e => MixGainAnimation.linear s e) =
            (Int32ToInt16 m.linear.end_point_value).map
              (fun e => MixGainAnimation.linear m.linear.start_point_value e) from rfl,
          Int32ToInt16_ok _ h2]
        exact ⟨⟨fun _ => ⟨h1, h2⟩, fun _ => rfl⟩, fun _ _ => rfl⟩
      · rw [show (Except.ok m.linear.start_point_value).bind (fun s =>
            (Int32ToInt16 m.linear.end_point_value).map fun e => MixGainAnimation.linear s e) =
            (Int32ToInt16 m.linear.end_point_value).map
              (fun e => MixGainAnimation.linear m.linear.start_point_value e) from rfl,
          Int32ToInt16_err _ h2]
        exact ⟨⟨fun hx => absurd hx Bool.false_ne_true, fun hc => absurd hc.2 h2⟩,
          fun _ hc => absurd hc h2⟩
    · rw [Int32ToInt16_err _ h1]
      exact ⟨⟨fun hx => absurd hx Bool.false_ne_true, fun hc => absurd hc.1 h1⟩,
        fun hc => absurd hc h1⟩
  · intro m h
    unfold GenerateMixGainSubblock
    rw [h]
    by_cases h1 : int16Range m.bezier.start_point_value
    case neg =>
      rw [Int32ToInt16_err _ h1]
      exact ⟨⟨fun hx => absurd hx Bool.false_ne_true, fun hc => absurd hc.1 h1⟩,
        fun hc => absurd hc h1⟩
    case pos =>
      rw [Int32ToInt16_ok _ h1]
      by_cases h2 : int16Range m.bezier.end_point_value
      case neg =>
        rw [show ((Except.ok m.bezier.start_point_value).bind fun s =>
            (Int32ToInt16 m.bezier.end_point_value).bind fun e =>
              (Int32ToInt16 m.bezier.control_point_value).bind fun c =>
                (Uint32ToUint8 m.bezier.control_point_relative_time).map fun t =>
                  MixGainAnimation.bezier s e c t) =
            ((Int32ToInt16 m.bezier.end_point_value).bind fun e =>
              (Int32ToInt16 m.bezier.control_point_value).bind fun c =>
                (Uint32ToUint8 m.bezier.control_point_relative_time).map fun t =>
                  MixGainAnimation.bezier m.bezier.start_point_value e c t) from rfl,
          Int32ToInt16_err _ h2]
        exact ⟨⟨fun hx => absurd hx Bool.false_ne_true, fun hc => absurd hc.2.1 h2⟩,
          fun _ hc => absurd hc h2⟩
      case pos =>
        rw [show ((Except.ok m.bezier.start_point_value).bind fun s =>
            (Int32ToInt16 m.bezier.end_point_value).bind fun e =>
              (Int32ToInt16 m.bezier.control_point_value).bind fun c =>
                (Uint32ToUint8 m.bezier.control_point_relative_time).map fun t =>
                  MixGainAnimation.bezier s e c t) =
            ((Int32ToInt16 m.bezier.end_point_value).bind fun e =>
              (Int32ToInt16 m.bezier.control_point_value).bind fun c =>
                (Uint32ToUint8 m.bezier.control_point_relative_time).map fun t =>
                  MixGainAnimation.bezier m.bezier.start_point_value e c t) from rfl,
          Int32ToInt16_ok _ h2]
        by_cases h3 : int16Range m.bezier.control_point_value
        case neg =>
          rw [show ((Except.ok m.bezier.end_point_value).bind fun e =>
              (Int32ToInt16 m.bezier.control_point_value).bind fun c =>
                (Uint32ToUint8 m.bezier.control_point_relative_time).map fun t =>
                  MixGainAnimation.bezier m.bezier.start_point_value e c t) =
              ((Int32ToInt16 m.bezier.control_point_value).bind fun c =>
                (Uint32ToUint8 m.bezier.control_point_relative_time).map fun t =>
                  MixGainAnimation.bezier m.bezier.start_point_value
                    m.bezier.end_point_value c t) from rfl,
            Int32ToInt16_err _ h3]
          exact ⟨⟨fun hx => absurd hx Bool.false_ne_true, fun hc => absurd hc.2.2.1 h3⟩,
            fun _ _ hc => absurd hc h3⟩
        case pos =>
          rw [show ((Except.ok m.bezier.end_point_value).bind fun e =>
              (Int32ToInt16 m.bezier.control_point_value).bind fun c =>
                (Uint32ToUint8 m.bezier.control_point_relative_time).map fun t =>
                  MixGainAnimation.bezier m.bezier.start_point_value e c t) =
              ((Int32ToInt16 m.bezier.control_point_value).bind fun c =>
                (Uint32ToUint8 m.bezier.control_point_relative_time).map fun t =>
                  MixGainAnimation.bezier m.bezier.start_point_value
                    m.bezier.end_point_value c t) from rfl,
            Int32ToInt16_ok _ h3]
          by_cases h4 : m.bezier.control_point_relative_time ≤ 255
          case neg =>
            rw [show ((Except.ok m.bezier.control_point_value).bind fun c =>
                (Uint32ToUint8 m.bezier.control_point_relative_time).map fun t =>
                  MixGainAnimation.bezier m.bezier.start_point_value
                    m.bezier.end_point_value c t) =
                ((Uint32ToUint8 m.bezier.control_point_relative_time).map fun t =>
                  MixGainAnimation.bezier m.bezier.start_point_value
                    m.bezier.end_point_value m.bezier.control_point_value t) from rfl,
              Uint32ToUint8_err _ h4]
            exact ⟨⟨fun hx => absurd hx Bool.false_ne_true, fun hc => absurd hc.2.2.2 h4⟩,
              fun _ _ _ hc => absurd hc h4⟩
          case pos =>
            rw [show ((Except.ok m.bezier.control_point_value).bind fun c =>
                (Uint32ToUint8 m.bezier.control_point_relative_time).map fun t =>
                  MixGainAnimation.bezier m.bezier.start_point_value
                    m.bezier.end_point_value c t) =
                ((Uint32ToUint8 m.bezier.control_point_relative_time).map fun t =>
                  MixGainAnimation.bezier m.bezier.start_point_value
                    m.bezier.end_point_value m.bezier.control_point_value t) from rfl,
              Uint32ToUint8_ok _ h4]
            exact ⟨⟨fun _ => ⟨h1, h2, h3, h4⟩, fun _ => rfl⟩, fun _ _ _ _ => rfl⟩

/-- Witness for claim C5: a linear animation holding INT16_MIN and INT16_MAX
is preserved exactly; a step animation at INT16_MAX + 1 fails; the
unrecognised animation type fails. -/
theorem generateMixGainSubblock_lossless_witness :
    GenerateMixGainSubblock ⟨.animateLinear, ⟨0⟩, ⟨-32768, 32767⟩, ⟨0, 0, 0, 0⟩⟩ =
        .ok (.linear (-32768) 32767) ∧
      (GenerateMixGainSubblock ⟨.animateStep, ⟨32768⟩, ⟨0, 0⟩, ⟨0, 0, 0, 0⟩⟩).isOk = false ∧
      (GenerateMixGainSubblock ⟨.animateInvalid, ⟨0⟩, ⟨0, 0⟩, ⟨0, 0, 0, 0⟩⟩).isOk = false := by
  refine ⟨?_, ?_, ?_⟩
  · exact (generateMixGainSubblock_lossless.2.2.1
      ⟨.animateLinear, ⟨0⟩, ⟨-32768, 32767⟩, ⟨0, 0, 0, 0⟩⟩ rfl).2
      (by constructor <;> norm_num) (by constructor <;> norm_num)
  · have h := (generateMixGainSubblock_lossless.2.1
      ⟨.animateStep, ⟨32768⟩, ⟨0, 0⟩, ⟨0, 0, 0, 0⟩⟩ rfl).1
    rcases hv : (GenerateMixGainSubblock ⟨.animateStep, ⟨32768⟩, ⟨0, 0⟩, ⟨0, 0, 0, 0⟩⟩).isOk
    · rfl
    · rw [hv] at h
      have : int16Range 32768 := h.mp rfl
      unfold int16Range at this
      omega
  · exact generateMixGainSubblock_lossless.1 ⟨.animateInvalid, ⟨0⟩, ⟨0, 0⟩, ⟨0, 0, 0, 0⟩⟩ rfl

end Iamf

namespace Iamf

/-- Per-id metadata of a registered demixing parameter, used to exercise the
demixing branch of `GenerateParameterBlockSubblock`. -/
def demixPerIdCE : PerIdParameterMetadata :=
  ⟨.kParameterDefinitionDemixing, ⟨some .kParameterDefinitionDemixing, 48000, 0, 8, 8, 1, 0⟩,
    0, [], [], 0⟩

/-- A metadata subblock carrying a valid demixing payload (`kDMixPMode1`,
reserved bits 0). -/
def demixSubCE : MetadataSubblock :=
  ⟨0, ⟨.animateInvalid, ⟨0⟩, ⟨0, 0⟩, ⟨0, 0, 0, 0⟩⟩, ⟨.mode1, 0⟩, ⟨[]⟩⟩

/-- Claim C4: the demixing-subblock index check is `subblock_index > 1`, so
subblock index 1 is accepted and its payload copied — two subblocks pass the
check that the code's own error message says should admit only one. Index 0
succeeds by copying and only indices of 2 and above fail. -/
theorem generateParameterBlockSubblock_demixing_index_check :
    GenerateParameterBlockSubblock false (fun _ _ _ => .ok 0) none none demixPerIdCE
        false 1 demixSubCE = .ok (none, .demixing ⟨.kDMixPMode1, 0⟩) ∧
      (GenerateParameterBlockSubblock false (fun _ _ _ => .ok 0) none none demixPerIdCE
        false 2 demixSubCE).isOk = false ∧
      GenerateParameterBlockSubblock false (fun _ _ _ => .ok 0) none none demixPerIdCE
        false 0 demixSubCE = .ok (none, .demixing ⟨.kDMixPMode1, 0⟩) :=
  ⟨rfl, rfl, rfl⟩

end Iamf

namespace Iamf

/-- Claim C8 amended: the typed metadata queue passed to
`GenerateParameterBlocks` is cleared exactly when every record succeeds; on
failure the call returns before the clear, so the queue still holds the
whole failing batch. -/
theorem generateParameterBlocks_queue (override_computed_recon_gains : Bool)
    (cg : ComputeGainFn) (f d : Option IdLabeledFrameMap)
    (pmeta : List (Nat × PerIdParameterMetadata))
    (queue : List ParameterBlockObuMetadata) (timing : TimingState)
    (outs : List ParameterBlockWithData) :
    ((GenerateParameterBlocks override_computed_recon_gains cg f d pmeta queue timing
        outs).status.isOk = true →
      (GenerateParameterBlocks override_computed_recon_gains cg f d pmeta queue timing
        outs).queue = []) ∧
    ((GenerateParameterBlocks override_computed_recon_gains cg f d pmeta queue timing
        outs).status.isOk = false →
      (GenerateParameterBlocks override_computed_recon_gains cg f d pmeta queue timing
        outs).queue = queue) := by
  unfold GenerateParameterBlocks
  rcases h : generateLoop override_computed_recon_gains cg f d pmeta queue timing outs
    with ⟨st, t, o⟩
  rcases st with e | u
  · exact ⟨fun hx => Bool.noConfusion hx, fun _ => rfl⟩
  · cases u
    exact ⟨fun _ => rfl, fun hx => Bool.noConfusion hx⟩

/-- The external recon-gain delegate used in concrete runs below. -/
def cgZeroCE : ComputeGainFn := fun _ _ _ => .ok 0

/-- Per-id metadata of a registered mode-0 mix-gain parameter with duration 8
and constant subblock duration 8 (one subblock). -/
def mixGainPerIdCE : PerIdParameterMetadata :=
  ⟨.kParameterDefinitionMixGain, ⟨some .kParameterDefinitionMixGain, 48000, 0, 8, 8, 1, 0⟩,
    0, [], [], 0⟩

/-- The registry for the concrete runs: parameter id 1 is the mix gain. -/
def pmetaCE : List (Nat × PerIdParameterMetadata) := [(1, mixGainPerIdCE)]

/-- A one-subblock step animation record. -/
def stepRecord (start_timestamp : Nat) (v : Int) : ParameterBlockObuMetadata :=
  ⟨1, 8, 8, 1, start_timestamp,
    [⟨0, ⟨.animateStep, ⟨v⟩, ⟨0, 0⟩, ⟨0, 0, 0, 0⟩⟩, ⟨.invalid, 0⟩, ⟨[]⟩⟩]⟩

/-- Claim C8 counterexample: a batch whose second record overflows int16
(start point 40000) makes `GenerateParameterBlocks` fail, and the queue then
still holds both records instead of being cleared; the first assembled block
is retained in the output list. -/
theorem generateParameterBlocks_failure_keeps_queue :
    (GenerateParameterBlocks false cgZeroCE none none pmetaCE
        [stepRecord 0 0, stepRecord 8 40000] [] []).status.isOk = false ∧
      (GenerateParameterBlocks false cgZeroCE none none pmetaCE
        [stepRecord 0 0, stepRecord 8 40000] [] []).queue =
        [stepRecord 0 0, stepRecord 8 40000] ∧
      [stepRecord 0 0, stepRecord 8 40000] ≠ ([] : List ParameterBlockObuMetadata) ∧
      (GenerateParameterBlocks false cgZeroCE none none pmetaCE
        [stepRecord 0 0, stepRecord 8 40000] [] []).outputs.length = 1 :=
  ⟨rfl, rfl, List.cons_ne_nil _ _, rfl⟩

/-- Witness for the amended claim C8: the same batch with only the good
record clears the queue; the failing batch leaves it untouched. -/
theorem generateParameterBlocks_queue_witness :
    (GenerateParameterBlocks false cgZeroCE none none pmetaCE
        [stepRecord 0 0] [] []).queue = [] ∧
      (GenerateParameterBlocks false cgZeroCE none none pmetaCE
        [stepRecord 0 0, stepRecord 8 40000] [] []).queue =
        [stepRecord 0 0, stepRecord 8 40000] :=
  ⟨(generateParameterBlocks_queue false cgZeroCE none none pmetaCE
      [stepRecord 0 0] [] []).1 rfl,
    (generateParameterBlocks_queue false cgZeroCE none none pmetaCE
      [stepRecord 0 0, stepRecord 8 40000] [] []).2 rfl⟩

end Iamf

namespace Iamf

theorem lookup_append_left {β : Type} (k : Nat) (m : β) :
    ∀ (l₁ l₂ : List (Nat × β)), List.lookup k l₁ = some m →
      List.lookup k (l₁ ++ l₂) = some m := by
  intro l₁
  induction l₁ with
  | nil => intro l₂ h; cases h
  | cons a t ih =>
    intro l₂ h
    rcases hbe : k == a.1 <;> simp only [List.lookup, hbe] at h ⊢
    · exact ih l₂ h
    · exact h

theorem lookup_append_fresh {β : Type} (k : Nat) (v : β) :
    ∀ l : List (Nat × β), List.lookup k l = none →
      List.lookup k (l ++ [(k, v)]) = some v := by
  intro l
  induction l with
  | nil => intro _; simp [List.lookup]
  | cons a t ih =>
    intro h
    rcases hbe : k == a.1 <;> simp only [List.lookup, hbe] at h ⊢
    · exact ih h
    · cases h

theorem initializeLoop_preserves (ae : List (Nat × AudioElementModel)) :
    ∀ (defs : List (Nat × ParamDefinitionModel)) (st st' : RegistryState),
      InitializeLoop ae defs st = (.ok (), st') →
      ∀ (k : Nat) (m : PerIdParameterMetadata),
        List.lookup k st = some m → List.lookup k st' = some m := by
  intro defs
  induction defs with
  | nil =>
    intro st st' h k m hk
    cases h
    exact hk
  | cons e rest ih =>
    intro st st' h k m hk
    unfold InitializeLoop at h
    split at h
    · split at h
      · exact ih _ _ h k m hk
      · exact Except.noConfusion (congrArg Prod.fst h)
    · split at h
      · exact Except.noConfusion (congrArg Prod.fst h)
      · split at h
        · exact ih _ _ h k m (lookup_append_left k m st _ hk)
        · exact Except.noConfusion (congrArg Prod.fst h)

/-- Claim C10 amended: when a call to `Initialize` succeeds, running it again
on the same inputs succeeds and leaves the registry exactly unchanged: every
already-registered id keeps its metadata (it is computed only on first
insertion) and only the stored type is re-checked. -/
theorem initialize_idempotent (ae : List (Nat × AudioElementModel)) :
    ∀ (defs : List (Nat × ParamDefinitionModel)) (st st' : RegistryState),
      Initialize ae defs st = (.ok (), st') → Initialize ae defs st' = (.ok (), st') := by
  intro defs
  induction defs with
  | nil =>
    intro st st' h
    cases h
    rfl
  | cons e rest ih =>
    intro st st' h
    unfold Initialize at h ⊢
    unfold InitializeLoop at h
    split at h
    case _ meta heq =>
      split at h
      case _ hsupp =>
        have hlook : List.lookup e.1 st' = some meta :=
          initializeLoop_preserves ae rest _ _ h e.1 meta heq
        show InitializeLoop ae (e :: rest) st' = (Except.ok (), st')
        unfold InitializeLoop
        rw [hlook]
        show (if supportedType meta.param_definition_type = true then
            InitializeLoop ae rest st'
          else (Except.error "Unsupported parameter type", st')) = (Except.ok (), st')
        rw [if_pos hsupp]
        exact ih _ _ h
      case _ => exact Except.noConfusion (congrArg Prod.fst h)
    case _ heq =>
      split at h
      case _ err pm hg => exact Except.noConfusion (congrArg Prod.fst h)
      case _ gmeta hg =>
        split at h
        case _ hsupp =>
          have hlook : List.lookup e.1 st' = some gmeta :=
            initializeLoop_preserves ae rest _ _ h e.1 gmeta
              (lookup_append_fresh e.1 gmeta st heq)
          show InitializeLoop ae (e :: rest) st' = (Except.ok (), st')
          unfold InitializeLoop
          rw [hlook]
          show (if supportedType gmeta.param_definition_type = true then
              InitializeLoop ae rest st'
            else (Except.error "Unsupported parameter type", st')) = (Except.ok (), st')
          rw [if_pos hsupp]
          exact ih _ _ h
        case _ => exact Except.noConfusion (congrArg Prod.fst h)

/-- A two-layer scalable audio element (id 5) for the concrete runs. -/
def aeCE : AudioElementModel := ⟨2, [false, true], [⟨1, 0, 0⟩, ⟨2, 0, 0⟩]⟩

/-- A recon-gain parameter definition referencing audio element 5. -/
def reconDefCE : ParamDefinitionModel :=
  ⟨some .kParameterDefinitionReconGain, 48000, 0, 8, 8, 1, 5⟩

/-- Claim C10 counterexample: when the recon-gain definition references a
missing audio element, the first `Initialize` fails but leaves a
default-filled entry registered; a second identical call then finds the id
registered with a supported type and succeeds. Two runs are therefore not
equivalent to one (error versus success). -/
theorem initialize_twice_not_equivalent :
    (Initialize [] [(1, reconDefCE)] []).1.isOk = false ∧
      (Initialize [] [(1, reconDefCE)] ((Initialize [] [(1, reconDefCE)] []).2)).1.isOk
        = true ∧
      (Initialize [] [(1, reconDefCE)] []).2 ≠ [] :=
  ⟨rfl, rfl, by decide⟩

/-- Witness for the amended claim C10 at a successful concrete run. -/
theorem initialize_idempotent_witness :
    Initialize [(5, aeCE)] [(1, reconDefCE)]
        ((Initialize [(5, aeCE)] [(1, reconDefCE)] []).2) =
      (.ok (), (Initialize [(5, aeCE)] [(1, reconDefCE)] []).2) :=
  initialize_idempotent [(5, aeCE)] [(1, reconDefCE)] []
    ((Initialize [(5, aeCE)] [(1, reconDefCE)] []).2) rfl

end Iamf

namespace Iamf

/-- Claim C9: whenever the `data` chunk's declared size extends past the end
of the file, `SpliceWavFilesFromAdm` fails (and, returning an error, produces
no output WAV at all). -/
theorem spliceWavFilesFromAdm_data_past_eof (reader : Bw64ReaderModel)
    (fileBytes : List Nat) (objects : List (List String)) (cid : String)
    (off size : Nat)
    (hfind : (reader.chunks.filter (fun c => c.1 = "data")).head? = some (cid, off, size))
    (hext : fileBytes.length < off + size) :
    (SpliceWavFilesFromAdm reader fileBytes objects).isOk = false := by
  unfold SpliceWavFilesFromAdm
  rw [hfind]
  show (if size % reader.block_align ≠ 0 then
      (Except.error "data chunk size is not a multiple of the block align" :
        Except String (List WavOut))
    else if fileBytes.length < off + size then
      Except.error "data chunk extends past the end of the file"
    else if (objects.map List.length).sum ≠ reader.num_channels then
      Except.error "track UID count does not match the channel count"
    else Except.ok (spliceObjects fileBytes off reader.block_align
      (bytesPerSample reader.bits_per_sample) (size / reader.block_align)
      (objects.map List.length) 0)).isOk = false
  by_cases hmod : size % reader.block_align ≠ 0
  · rw [if_pos hmod]
    rfl
  · rw [if_neg hmod, if_pos hext]
    rfl

/-- The chunk index of the 184-byte seed input of section 8 scenario 3: the
`data` chunk at payload offset 176 declares 10 bytes while only 8 remain. -/
def inconsistentReaderCE : Bw64ReaderModel :=
  ⟨2, 16, 4, [("fmt ", 20, 16), ("axml", 44, 124), ("data", 176, 10)]⟩

/-- Witness for claim C9 at the seed input: a 184-byte file whose data chunk
declares size 10 at offset 176 (176 + 10 > 184). -/
theorem spliceWavFilesFromAdm_data_past_eof_witness :
    (SpliceWavFilesFromAdm inconsistentReaderCE (List.replicate 184 0)
      [["L", "R"]]).isOk = false :=
  spliceWavFilesFromAdm_data_past_eof inconsistentReaderCE (List.replicate 184 0)
    [["L", "R"]] "data" 176 10 rfl (by rw [List.length_replicate]; omega)

end Iamf

namespace Iamf

/-- Number of set bits among the 12 bit positions of a recon-gain flag. -/
def popcount12 (n : Nat) : Nat := ((List.range 12).filter n.testBit).length

theorem any_bp_eq_decide_mem (entries : List (Label × ℚ)) (i : Nat) :
    (entries.any fun e => decide (bitPosition e.1 = i)) =
      decide (i ∈ entries.map fun e => bitPosition e.1) := by
  by_cases hmem : i ∈ entries.map fun e => bitPosition e.1
  · rw [decide_eq_true hmem]
    rcases List.mem_map.mp hmem with ⟨e, he, hbe⟩
    exact List.any_eq_true.mpr ⟨e, he, decide_eq_true hbe⟩
  · rw [decide_eq_false hmem]
    rw [List.any_eq_false]
    intro e he
    simp only [decide_eq_true_eq]
    intro hbe
    exact hmem (List.mem_map.mpr ⟨e, he, hbe⟩)

theorem filter_range_mem_length (B : List Nat) (h : ∀ b ∈ B, b < 12) :
    ((List.range 12).filter (fun i => decide (i ∈ B))).length = B.dedup.length := by
  have nd : ((List.range 12).filter (fun i => decide (i ∈ B))).Nodup :=
    (List.nodup_range 12).filter _
  rw [← List.card_toFinset B, ← List.toFinset_card_of_nodup nd]
  refine congrArg Finset.card (Finset.ext fun x => ?_)
  simp only [List.mem_toFinset, List.mem_filter, List.mem_range, decide_eq_true_eq]
  exact ⟨fun hx => hx.2, fun hx => ⟨h x hx, hx⟩⟩

theorem convert_flag_testBit (entries : List (Label × ℚ)) (i : Nat) :
    (ConvertReconGainsAndFlags entries).2.testBit i =
      (entries.any fun e => decide (bitPosition e.1 = i)) := by
  unfold ConvertReconGainsAndFlags
  rw [convertFold_flag_testBit, Nat.zero_testBit, Bool.false_or]

/-- The number of set bits of the packed flag equals the number of distinct
bit positions among the packed entries. -/
theorem popcount12_convert (entries : List (Label × ℚ)) :
    popcount12 (ConvertReconGainsAndFlags entries).2 =
      ((entries.map fun e => bitPosition e.1).dedup).length := by
  unfold popcount12
  rw [List.filter_congr
    (fun i _ => by
      rw [convert_flag_testBit, any_bp_eq_decide_mem])]
  refine filter_range_mem_length _ ?_
  intro b hb
  rcases List.mem_map.mp hb with ⟨e, _, hbe⟩
  rw [← hbe]
  exact bitPosition_lt_12 e.1

/-- A byte at an unset bit position of the packed flag is zero. -/
theorem convert_unset_byte_zero (entries : List (Label × ℚ)) (i : Nat)
    (hbit : (ConvertReconGainsAndFlags entries).2.testBit i = false) :
    (ConvertReconGainsAndFlags entries).1.getD i 0 = 0 := by
  have hany : (entries.any fun e => decide (bitPosition e.1 = i)) = false := by
    rw [← convert_flag_testBit]
    exact hbit
  have hall : ∀ e ∈ entries, bitPosition e.1 ≠ i := by
    intro e he hcontra
    have hx : (entries.any fun e => decide (bitPosition e.1 = i)) = true :=
      List.any_eq_true.mpr ⟨e, he, decide_eq_true hcontra⟩
    rw [hany] at hx
    exact Bool.noConfusion hx
  unfold ConvertReconGainsAndFlags
  rw [convertFold_untouched entries _ i hall]
  rcases Nat.lt_or_ge i 12 with hi | hi
  · rw [List.getD_eq_getElem?_getD, List.getElem?_replicate, if_pos hi]
    rfl
  · rw [List.getD_eq_getElem?_getD, List.getElem?_replicate,
      if_neg (by omega)]
    rfl

end Iamf

namespace Iamf

theorem list_isEmpty_of_map_fst (pairs : List (Label × ℚ)) (labels : List Label)
    (h : pairs.map Prod.fst = labels) : pairs.isEmpty = labels.isEmpty := by
  cases pairs
  · cases labels
    · rfl
    · exact absurd h (by simp)
  · cases labels
    · exact absurd h (by simp)
    · rfl

theorem computeReconGains_ok_shape (cg : ComputeGainFn) (k : Nat)
    (lc ac : ChannelNumbers) (s d : LabelSamplesMap) (flags : List Bool)
    (gains : List Nat) (flag : Nat)
    (h : ComputeReconGains cg k lc ac s d flags = .ok (gains, flag)) :
    ∃ (labels : List Label) (entries : List (Label × ℚ)),
      layerDemixedSet k ac lc = .ok labels ∧
      entries.map Prod.fst = labels ∧
      ConvertReconGainsAndFlags entries = (gains, flag) ∧
      flags.getD k false = !labels.isEmpty := by
  unfold ComputeReconGains at h
  unfold layerDemixedSet
  by_cases hk : 0 < k
  · rw [if_pos hk] at h ⊢
    rcases hf : FindDemixedChannels ac lc with e | labels <;> rw [hf] at h
    · exact Except.noConfusion h
    · replace h : (match gainPairs cg s d labels with
        | .error e => (.error e : Except String (List Nat × Nat))
        | .ok lg =>
          if flags.getD k false ≠ !lg.isEmpty then
            .error "Mismatch of whether user specified recon gain is present"
          else .ok (ConvertReconGainsAndFlags lg)) = .ok (gains, flag) := h
      rcases hgp : gainPairs cg s d labels with e | pairs <;> rw [hgp] at h
      · exact Except.noConfusion h
      · replace h : (if flags.getD k false ≠ !pairs.isEmpty then
            (.error "Mismatch of whether user specified recon gain is present" :
              Except String (List Nat × Nat))
          else .ok (ConvertReconGainsAndFlags pairs)) = .ok (gains, flag) := h
        by_cases hne : flags.getD k false ≠ !pairs.isEmpty
        · rw [if_pos hne] at h
          exact Except.noConfusion h
        · rw [if_neg hne] at h
          have hfst := gainPairs_ok_map_fst cg s d labels pairs hgp
          refine ⟨labels, pairs, rfl, hfst, by injection h, ?_⟩
          rw [← list_isEmpty_of_map_fst pairs labels hfst]
          exact not_ne_iff.mp hne
  · rw [if_neg hk] at h ⊢
    replace h : (if flags.getD k false ≠ !(([] : List (Label × ℚ)).isEmpty) then
        (.error "Mismatch of whether user specified recon gain is present" :
          Except String (List Nat × Nat))
      else .ok (ConvertReconGainsAndFlags [])) = .ok (gains, flag) := h
    by_cases hne : flags.getD k false ≠ !(([] : List (Label × ℚ)).isEmpty)
    · rw [if_pos hne] at h
      exact Except.noConfusion h
    · rw [if_neg hne] at h
      exact ⟨[], [], rfl, rfl, by injection h, not_ne_iff.mp hne⟩

end Iamf

namespace Iamf

theorem processOneLayer_ok_shape (cg : ComputeGainFn) (f d : IdLabeledFrameMap)
    (flags : List Bool) (channels : List ChannelNumbers)
    (userLayers : List ReconGainsLayerMeta) (aid i : Nat) (acc : ChannelNumbers)
    (elem : ReconGainElement) (acc' : ChannelNumbers)
    (h : processOneLayer false cg f d flags channels userLayers aid i acc =
      .ok (elem, acc')) :
    acc' = channels.getD i ⟨0, 0, 0⟩ ∧
    (flags.getD i false = true →
      ∃ (labels : List Label) (entries : List (Label × ℚ)),
        layerDemixedSet i acc (channels.getD i ⟨0, 0, 0⟩) = .ok labels ∧
        entries.map Prod.fst = labels ∧
        elem.recon_gain_flag = (ConvertReconGainsAndFlags entries).2 ∧
        elem.recon_gain = (ConvertReconGainsAndFlags entries).1) := by
  replace h : (match List.lookup aid f, List.lookup aid d with
      | some lf, some ldf =>
        (match ComputeReconGains cg i (channels.getD i ⟨0, 0, 0⟩) acc
            lf.label_to_samples ldf.label_to_samples flags with
        | .error e => (.error e : Except String (ReconGainElement × ChannelNumbers))
        | .ok (cgains, cflag) =>
          if flags.getD i false = false then
            .ok (⟨userFlagOf (userLayers.getD i ⟨[]⟩).recon_gain,
              userGainsOf (userLayers.getD i ⟨[]⟩).recon_gain⟩, channels.getD i ⟨0, 0, 0⟩)
          else if cflag ≠ userFlagOf (userLayers.getD i ⟨[]⟩).recon_gain then
            .error "Computed recon gain flag different from what user specified"
          else if userGainsOf (userLayers.getD i ⟨[]⟩).recon_gain ≠ cgains then
            .error "Recon gains mismatch"
          else
            .ok (⟨userFlagOf (userLayers.getD i ⟨[]⟩).recon_gain,
              userGainsOf (userLayers.getD i ⟨[]⟩).recon_gain⟩, channels.getD i ⟨0, 0, 0⟩))
      | _, _ =>
        .error "Original or decoded audio frame not found when computing recon gains") =
      .ok (elem, acc') := h
  rcases hlf : List.lookup aid f with _ | lf <;> rw [hlf] at h
  · exact Except.noConfusion h
  rcases hld : List.lookup aid d with _ | ldf <;> rw [hld] at h
  · exact Except.noConfusion h
  replace h : (match ComputeReconGains cg i (channels.getD i ⟨0, 0, 0⟩) acc
      lf.label_to_samples ldf.label_to_samples flags with
    | .error e => (.error e : Except String (ReconGainElement × ChannelNumbers))
    | .ok (cgains, cflag) =>
      if flags.getD i false = false then
        .ok (⟨userFlagOf (userLayers.getD i ⟨[]⟩).recon_gain,
          userGainsOf (userLayers.getD i ⟨[]⟩).recon_gain⟩, channels.getD i ⟨0, 0, 0⟩)
      else if cflag ≠ userFlagOf (userLayers.getD i ⟨[]⟩).recon_gain then
        .error "Computed recon gain flag different from what user specified"
      else if userGainsOf (userLayers.getD i ⟨[]⟩).recon_gain ≠ cgains then
        .error "Recon gains mismatch"
      else
        .ok (⟨userFlagOf (userLayers.getD i ⟨[]⟩).recon_gain,
          userGainsOf (userLayers.getD i ⟨[]⟩).recon_gain⟩, channels.getD i ⟨0, 0, 0⟩)) =
      .ok (elem, acc') := h
  rcases hcr : ComputeReconGains cg i (channels.getD i ⟨0, 0, 0⟩) acc
      lf.label_to_samples ldf.label_to_samples flags with e | pair <;> rw [hcr] at h
  · exact Except.noConfusion h
  rcases pair with ⟨cgains, cflag⟩
  replace h : (if flags.getD i false = false then
      (.ok (⟨userFlagOf (userLayers.getD i ⟨[]⟩).recon_gain,
        userGainsOf (userLayers.getD i ⟨[]⟩).recon_gain⟩, channels.getD i ⟨0, 0, 0⟩) :
        Except String (ReconGainElement × ChannelNumbers))
    else if cflag ≠ userFlagOf (userLayers.getD i ⟨[]⟩).recon_gain then
      .error "Computed recon gain flag different from what user specified"
    else if userGainsOf (userLayers.getD i ⟨[]⟩).recon_gain ≠ cgains then
      .error "Recon gains mismatch"
    else
      .ok (⟨userFlagOf (userLayers.getD i ⟨[]⟩).recon_gain,
        userGainsOf (userLayers.getD i ⟨[]⟩).recon_gain⟩, channels.getD i ⟨0, 0, 0⟩)) =
      .ok (elem, acc') := h
  by_cases hf0 : flags.getD i false = false
  · rw [if_pos hf0] at h
    injection h with hpair
    rw [Prod.mk.injEq] at hpair
    refine ⟨hpair.2.symm, fun hft => ?_⟩
    rw [hf0] at hft
    exact Bool.noConfusion hft
  · rw [if_neg hf0] at h
    by_cases hfl : cflag ≠ userFlagOf (userLayers.getD i ⟨[]⟩).recon_gain
    · rw [if_pos hfl] at h
      exact Except.noConfusion h
    · rw [if_neg hfl] at h
      by_cases hgs : userGainsOf (userLayers.getD i ⟨[]⟩).recon_gain ≠ cgains
      · rw [if_pos hgs] at h
        exact Except.noConfusion h
      · rw [if_neg hgs] at h
        injection h with hpair
        rw [Prod.mk.injEq] at hpair
        obtain ⟨helem, hacc⟩ := hpair
        refine ⟨hacc.symm, fun _ => ?_⟩
        obtain ⟨labels, entries, hl, hfst, hconv, _⟩ :=
          computeReconGains_ok_shape cg i (channels.getD i ⟨0, 0, 0⟩) acc
            lf.label_to_samples ldf.label_to_samples flags cgains cflag hcr
        refine ⟨labels, entries, hl, hfst, ?_, ?_⟩
        · rw [← helem]
          show userFlagOf (userLayers.getD i ⟨[]⟩).recon_gain =
            (ConvertReconGainsAndFlags entries).2
          rw [hconv, ← not_ne_iff.mp hfl]
        · rw [← helem]
          show userGainsOf (userLayers.getD i ⟨[]⟩).recon_gain =
            (ConvertReconGainsAndFlags entries).1
          rw [hconv, not_ne_iff.mp hgs]

end Iamf

namespace Iamf

theorem processLayers_ok_shape (cg : ComputeGainFn) (f d : IdLabeledFrameMap)
    (flags : List Bool) (channels : List ChannelNumbers)
    (userLayers : List ReconGainsLayerMeta) (aid : Nat) :
    ∀ (idxs : List Nat) (acc : ChannelNumbers) (elems : List ReconGainElement),
      processLayers false cg f d flags channels userLayers aid idxs acc = .ok elems →
      ∀ j, j < idxs.length →
        ∃ (elem : ReconGainElement) (acc' : ChannelNumbers),
          processOneLayer false cg f d flags channels userLayers aid (idxs.getD j 0)
            (if j = 0 then acc else channels.getD (idxs.getD (j - 1) 0) ⟨0, 0, 0⟩) =
            .ok (elem, acc') ∧
          elems.getD j ⟨0, []⟩ = elem := by
  intro idxs
  induction idxs with
  | nil =>
    intro acc elems h j hj
    exact absurd hj (by simp)
  | cons i rest ih =>
    intro acc elems h j hj
    replace h : (match processOneLayer false cg f d flags channels userLayers aid i acc with
      | .error e => (.error e : Except String (List ReconGainElement))
      | .ok (elem, acc') =>
        match processLayers false cg f d flags channels userLayers aid rest acc' with
        | .error e => .error e
        | .ok tail => .ok (elem :: tail)) = .ok elems := h
    rcases hh : processOneLayer false cg f d flags channels userLayers aid i acc
      with e | p <;> rw [hh] at h
    · exact Except.noConfusion h
    rcases p with ⟨elem0, acc1⟩
    replace h : (match processLayers false cg f d flags channels userLayers aid rest acc1 with
      | .error e => (.error e : Except String (List ReconGainElement))
      | .ok tail => .ok (elem0 :: tail)) = .ok elems := h
    rcases ht : processLayers false cg f d flags channels userLayers aid rest acc1
      with e | tail <;> rw [ht] at h
    · exact Except.noConfusion h
    injection h with helems
    cases j with
    | zero =>
      refine ⟨elem0, acc1, hh, ?_⟩
      rw [← helems]
      rfl
    | succ n =>
      have hn : n < rest.length := by
        simpa using hj
      obtain ⟨elem, acc', hone, hget⟩ := ih acc1 tail ht n hn
      refine ⟨elem, acc', ?_, ?_⟩
      · have hacc1 : acc1 = channels.getD i ⟨0, 0, 0⟩ :=
          (processOneLayer_ok_shape cg f d flags channels userLayers aid i acc
            elem0 acc1 hh).1
        cases n with
        | zero =>
          show processOneLayer false cg f d flags channels userLayers aid (rest.getD 0 0)
            (channels.getD i ⟨0, 0, 0⟩) = .ok (elem, acc')
          rw [← hacc1]
          exact hone
        | succ n2 =>
          show processOneLayer false cg f d flags channels userLayers aid
            (rest.getD (n2 + 1) 0) (channels.getD (rest.getD n2 0) ⟨0, 0, 0⟩) =
            .ok (elem, acc')
          exact hone
      · rw [← helems]
        show tail.getD n ⟨0, []⟩ = elem
        exact hget

/-- The demixed channel set of layer k of a scalable element whose layer
channel numbers are `channels` (the accumulated channels of layer k are the
channel numbers of layer k-1, or zero for the base layer). -/
def layerDemixedFor (channels : List ChannelNumbers) (k : Nat) :
    Except String (List Label) :=
  layerDemixedSet k (channels.getD (k - 1) ⟨0, 0, 0⟩) (channels.getD k ⟨0, 0, 0⟩)

/-- Claim C7 amended: for every recon-gain layer k with its presence flag set
of a subblock successfully generated with recomputation enabled, the number
of set bits of `recon_gain_flag` equals the number of DISTINCT bit positions
of the demixed channels of layer k (labels sharing a position, e.g. DemixedL3
and DemixedL7, collapse into one bit), and every byte at an unset bit
position is zero. -/
theorem reconGainSubblock_flag_popcount (cg : ComputeGainFn)
    (f d : IdLabeledFrameMap) (n : Nat) (flags : List Bool)
    (channels : List ChannelNumbers) (meta : ReconGainInfoMeta) (aid : Nat)
    (out : ReconGainInfoParameterData) (k : Nat) (dl : List Label)
    (hok : GenerateReconGainSubblock false cg f d n flags channels meta aid = .ok out)
    (hk : k < n) (hflag : flags.getD k false = true)
    (hdl : layerDemixedFor channels k = .ok dl) :
    popcount12 (out.recon_gain_elements.getD k ⟨0, []⟩).recon_gain_flag =
      (dl.map bitPosition).dedup.length ∧
    ∀ b, (out.recon_gain_elements.getD k ⟨0, []⟩).recon_gain_flag.testBit b = false →
      (out.recon_gain_elements.getD k ⟨0, []⟩).recon_gain.getD b 0 = 0 := by
  unfold GenerateReconGainSubblock at hok
  by_cases hcnt : 1 < n ∧ n ≠ meta.recon_gains_for_layer.length
  · rw [if_pos hcnt] at hok
    exact Except.noConfusion hok
  rw [if_neg hcnt] at hok
  rcases hpl : processLayers false cg f d flags channels meta.recon_gains_for_layer aid
    (List.range n) ⟨0, 0, 0⟩ with e | elems <;> rw [hpl] at hok
  · exact Except.noConfusion hok
  injection hok with hout
  have hrk : (List.range n).getD k 0 = k := by
    rw [List.getD_eq_getElem?_getD, List.getElem?_range hk]
    rfl
  obtain ⟨elem, acc', hone, hget⟩ := processLayers_ok_shape cg f d flags channels
    meta.recon_gains_for_layer aid (List.range n) ⟨0, 0, 0⟩ elems hpl k
    (by rw [List.length_range]; exact hk)
  rw [hrk] at hone
  obtain ⟨-, hshape⟩ := processOneLayer_ok_shape cg f d flags channels
    meta.recon_gains_for_layer aid k _ elem acc' hone
  obtain ⟨labels, entries, hl, hfst, hfl, hgn⟩ := hshape hflag
  have helem : (out.recon_gain_elements.getD k ⟨0, []⟩) = elem := by
    rw [← hout]
    exact hget
  have hlabels_dl : labels = dl := by
    unfold layerDemixedFor at hdl
    rcases Nat.eq_zero_or_pos k with hk0 | hkpos
    · subst hk0
      unfold layerDemixedSet at hl hdl
      rw [if_neg (by omega)] at hl hdl
      injection hl with hl2
      injection hdl with hdl2
      rw [← hl2, ← hdl2]
    · have hrk1 : (List.range n).getD (k - 1) 0 = k - 1 := by
        rw [List.getD_eq_getElem?_getD, List.getElem?_range (by omega)]
        rfl
      rw [if_neg (by omega), hrk1] at hl
      exact Option.some.inj (by
        have := hl.symm.trans hdl
        exact congrArg (fun x => match x with
          | Except.ok v => some v
          | Except.error _ => none) this)
  constructor
  · rw [helem, hfl, popcount12_convert,
      show (entries.map fun e => bitPosition e.1) = labels.map bitPosition from by
        rw [← hfst, List.map_map]
        rfl,
      hlabels_dl]
  · intro b hb
    rw [helem] at hb ⊢
    rw [hgn]
    refine convert_unset_byte_zero entries b ?_
    rw [← hfl]
    exact hb

end Iamf

namespace Iamf

/-- External gain delegate returning gain 1 for every demixed label. -/
def cgOneCE : ComputeGainFn := fun _ _ _ => .ok 1

/-- The frame maps for audio element 7 used by the concrete recon-gain runs. -/
def frameCE : IdLabeledFrameMap := [(7, ⟨[]⟩)]

/-- Layer channels stereo then 7.x: layer 1 crosses the surround thresholds
3, 5 and 7 at once. -/
def chansCE7 : List ChannelNumbers := [⟨2, 0, 0⟩, ⟨7, 0, 0⟩]

/-- User recon gains for the crossing scenario: 255 at each of the six
distinct bit positions of the eight demixed labels. -/
def userCE7 : List ReconGainsLayerMeta :=
  [⟨[]⟩, ⟨[(0, 255), (2, 255), (3, 255), (4, 255), (7, 255), (8, 255)]⟩]

/-- Recon gain metadata wrapping `userCE7`. -/
def metaCE7 : ReconGainInfoMeta := ⟨userCE7⟩

/-- The 12-byte vector with 255 at positions 0, 2, 3, 4, 7, 8. -/
def gainsCE7 : List Nat := [255, 0, 255, 255, 255, 0, 0, 255, 255, 0, 0, 0]

/-- The eight demixed labels of the stereo-to-7.x transition. -/
def demixLabelsCE7 : List Label :=
  [.kDemixedL3, .kDemixedR3, .kDemixedLs5, .kDemixedRs5,
    .kDemixedL7, .kDemixedR7, .kDemixedLrs7, .kDemixedRrs7]

theorem convert_crossing_eval :
    ConvertReconGainsAndFlags (demixLabelsCE7.map fun l => (l, 1)) = (gainsCE7, 413) := by
  simp only [demixLabelsCE7, List.map_cons, List.map_nil, ConvertReconGainsAndFlags,
    List.foldl_cons, List.foldl_nil, convertStep, gainByte_one]
  decide

theorem computeReconGains_crossing_eval :
    ComputeReconGains cgOneCE 1 ⟨7, 0, 0⟩ ⟨2, 0, 0⟩ [] [] [false, true] =
      .ok (gainsCE7, 413) := by
  have hred : ComputeReconGains cgOneCE 1 ⟨7, 0, 0⟩ ⟨2, 0, 0⟩ [] [] [false, true] =
      .ok (ConvertReconGainsAndFlags (demixLabelsCE7.map fun l => (l, 1))) := rfl
  rw [convert_crossing_eval] at hred
  exact hred

theorem processOneLayer_crossing_layer0 :
    processOneLayer false cgOneCE frameCE frameCE [false, true] chansCE7 userCE7 7 0
      ⟨0, 0, 0⟩ = .ok (⟨0, List.replicate 12 0⟩, ⟨2, 0, 0⟩) := rfl

theorem processOneLayer_crossing_layer1 :
    processOneLayer false cgOneCE frameCE frameCE [false, true] chansCE7 userCE7 7 1
      ⟨2, 0, 0⟩ = .ok (⟨413, gainsCE7⟩, ⟨7, 0, 0⟩) := by
  show (match ComputeReconGains cgOneCE 1 ⟨7, 0, 0⟩ ⟨2, 0, 0⟩ [] [] [false, true] with
    | Except.error e => (Except.error e : Except String (ReconGainElement × ChannelNumbers))
    | Except.ok (cgains, cflag) =>
      if ([false, true] : List Bool).getD 1 false = false then
        Except.ok (⟨userFlagOf (userCE7.getD 1 ⟨[]⟩).recon_gain,
          userGainsOf (userCE7.getD 1 ⟨[]⟩).recon_gain⟩, (⟨7, 0, 0⟩ : ChannelNumbers))
      else if cflag ≠ userFlagOf (userCE7.getD 1 ⟨[]⟩).recon_gain then
        Except.error "Computed recon gain flag different from what user specified"
      else if userGainsOf (userCE7.getD 1 ⟨[]⟩).recon_gain ≠ cgains then
        Except.error "Recon gains mismatch"
      else
        Except.ok (⟨userFlagOf (userCE7.getD 1 ⟨[]⟩).recon_gain,
          userGainsOf (userCE7.getD 1 ⟨[]⟩).recon_gain⟩, (⟨7, 0, 0⟩ : ChannelNumbers))) =
    Except.ok (⟨413, gainsCE7⟩, ⟨7, 0, 0⟩)
  rw [computeReconGains_crossing_eval]
  rfl

theorem generateReconGainSubblock_crossing_eval :
    GenerateReconGainSubblock false cgOneCE frameCE frameCE 2 [false, true] chansCE7
      metaCE7 7 = .ok ⟨[⟨0, List.replicate 12 0⟩, ⟨413, gainsCE7⟩]⟩ := by
  have hpl1 : processLayers false cgOneCE frameCE frameCE [false, true] chansCE7 userCE7 7
      [1] ⟨2, 0, 0⟩ = .ok [⟨413, gainsCE7⟩] := by
    show (match processOneLayer false cgOneCE frameCE frameCE [false, true] chansCE7
        userCE7 7 1 ⟨2, 0, 0⟩ with
      | Except.error e => (Except.error e : Except String (List ReconGainElement))
      | Except.ok (elem, acc') =>
        match processLayers false cgOneCE frameCE frameCE [false, true] chansCE7 userCE7 7
            [] acc' with
        | Except.error e => Except.error e
        | Except.ok tail => Except.ok (elem :: tail)) = Except.ok [⟨413, gainsCE7⟩]
    rw [processOneLayer_crossing_layer1]
    rfl
  have hpl0 : processLayers false cgOneCE frameCE frameCE [false, true] chansCE7 userCE7 7
      [0, 1] ⟨0, 0, 0⟩ = .ok [⟨0, List.replicate 12 0⟩, ⟨413, gainsCE7⟩] := by
    show (match processOneLayer false cgOneCE frameCE frameCE [false, true] chansCE7
        userCE7 7 0 ⟨0, 0, 0⟩ with
      | Except.error e => (Except.error e : Except String (List ReconGainElement))
      | Except.ok (elem, acc') =>
        match processLayers false cgOneCE frameCE frameCE [false, true] chansCE7 userCE7 7
            [1] acc' with
        | Except.error e => Except.error e
        | Except.ok tail => Except.ok (elem :: tail)) =
      Except.ok [⟨0, List.replicate 12 0⟩, ⟨413, gainsCE7⟩]
    rw [processOneLayer_crossing_layer0]
    show (match processLayers false cgOneCE frameCE frameCE [false, true] chansCE7 userCE7 7
        [1] ⟨2, 0, 0⟩ with
      | Except.error e => (Except.error e : Except String (List ReconGainElement))
      | Except.ok tail => Except.ok ((⟨0, List.replicate 12 0⟩ : ReconGainElement) :: tail)) =
      Except.ok [⟨0, List.replicate 12 0⟩, ⟨413, gainsCE7⟩]
    rw [hpl1]
  show (match processLayers false cgOneCE frameCE frameCE [false, true] chansCE7 userCE7 7
      (List.range 2) ⟨0, 0, 0⟩ with
    | Except.error e => (Except.error e : Except String ReconGainInfoParameterData)
    | Except.ok elems => Except.ok ⟨elems⟩) =
    Except.ok ⟨[⟨0, List.replicate 12 0⟩, ⟨413, gainsCE7⟩]⟩
  rw [show List.range 2 = [0, 1] from rfl, hpl0]

/-- Claim C7 counterexample: a successfully generated recon-gain subblock
whose layer 1 (presence flag set) demixes eight channels (stereo to 7.x
crosses surrounds 3, 5 and 7) but whose recon-gain flag has only six set
bits, because DemixedL3/DemixedL7 share bit 0 and DemixedR3/DemixedR7 share
bit 2. The claimed equality popcount = |demixed set| fails: 6 is not 8. -/
theorem reconGainSubblock_popcount_counterexample :
    GenerateReconGainSubblock false cgOneCE frameCE frameCE 2 [false, true] chansCE7
        metaCE7 7 = .ok ⟨[⟨0, List.replicate 12 0⟩, ⟨413, gainsCE7⟩]⟩ ∧
      layerDemixedFor chansCE7 1 = .ok demixLabelsCE7 ∧
      demixLabelsCE7.length = 8 ∧
      popcount12 413 = 6 :=
  ⟨generateReconGainSubblock_crossing_eval, rfl, rfl, by decide⟩

end Iamf

namespace Iamf

/-- Layer channels mono then stereo for the witness run. -/
def chansW : List ChannelNumbers := [⟨1, 0, 0⟩, ⟨2, 0, 0⟩]

/-- User recon gains for the witness run: 255 at bit 2 (DemixedR2). -/
def userW : List ReconGainsLayerMeta := [⟨[]⟩, ⟨[(2, 255)]⟩]

/-- Recon gain metadata wrapping `userW`. -/
def metaW : ReconGainInfoMeta := ⟨userW⟩

/-- The output of the witness run. -/
def outW : ReconGainInfoParameterData :=
  ⟨[⟨0, List.replicate 12 0⟩, ⟨4, (List.replicate 12 0).set 2 255⟩]⟩

theorem convert_r2_eval :
    ConvertReconGainsAndFlags [(Label.kDemixedR2, 1)] =
      ((List.replicate 12 0).set 2 255, 4) := by
  show ((List.replicate 12 0).set 2 (gainByte 1), 0 ||| 1 <<< 2) = _
  rw [gainByte_one]
  rfl

theorem computeReconGains_r2_eval :
    ComputeReconGains cgOneCE 1 ⟨2, 0, 0⟩ ⟨1, 0, 0⟩ [] [] [false, true] =
      .ok ((List.replicate 12 0).set 2 255, 4) := by
  have hred : ComputeReconGains cgOneCE 1 ⟨2, 0, 0⟩ ⟨1, 0, 0⟩ [] [] [false, true] =
      .ok (ConvertReconGainsAndFlags [(Label.kDemixedR2, 1)]) := rfl
  rw [convert_r2_eval] at hred
  exact hred

theorem processOneLayer_r2_layer1 :
    processOneLayer false cgOneCE frameCE frameCE [false, true] chansW userW 7 1
      ⟨1, 0, 0⟩ = .ok (⟨4, (List.replicate 12 0).set 2 255⟩, ⟨2, 0, 0⟩) := by
  show (match ComputeReconGains cgOneCE 1 ⟨2, 0, 0⟩ ⟨1, 0, 0⟩ [] [] [false, true] with
    | Except.error e => (Except.error e : Except String (ReconGainElement × ChannelNumbers))
    | Except.ok (cgains, cflag) =>
      if ([false, true] : List Bool).getD 1 false = false then
        Except.ok (⟨userFlagOf (userW.getD 1 ⟨[]⟩).recon_gain,
          userGainsOf (userW.getD 1 ⟨[]⟩).recon_gain⟩, (⟨2, 0, 0⟩ : ChannelNumbers))
      else if cflag ≠ userFlagOf (userW.getD 1 ⟨[]⟩).recon_gain then
        Except.error "Computed recon gain flag different from what user specified"
      else if userGainsOf (userW.getD 1 ⟨[]⟩).recon_gain ≠ cgains then
        Except.error "Recon gains mismatch"
      else
        Except.ok (⟨userFlagOf (userW.getD 1 ⟨[]⟩).recon_gain,
          userGainsOf (userW.getD 1 ⟨[]⟩).recon_gain⟩, (⟨2, 0, 0⟩ : ChannelNumbers))) =
    Except.ok (⟨4, (List.replicate 12 0).set 2 255⟩, ⟨2, 0, 0⟩)
  rw [computeReconGains_r2_eval]
  rfl

theorem generateReconGainSubblock_r2_eval :
    GenerateReconGainSubblock false cgOneCE frameCE frameCE 2 [false, true] chansW
      metaW 7 = .ok outW := by
  have hpl1 : processLayers false cgOneCE frameCE frameCE [false, true] chansW userW 7
      [1] ⟨1, 0, 0⟩ = .ok [⟨4, (List.replicate 12 0).set 2 255⟩] := by
    show (match processOneLayer false cgOneCE frameCE frameCE [false, true] chansW
        userW 7 1 ⟨1, 0, 0⟩ with
      | Except.error e => (Except.error e : Except String (List ReconGainElement))
      | Except.ok (elem, acc') =>
        match processLayers false cgOneCE frameCE frameCE [false, true] chansW userW 7
            [] acc' with
        | Except.error e => Except.error e
        | Except.ok tail => Except.ok (elem :: tail)) =
      Except.ok [⟨4, (List.replicate 12 0).set 2 255⟩]
    rw [processOneLayer_r2_layer1]
    rfl
  have hpl0 : processLayers false cgOneCE frameCE frameCE [false, true] chansW userW 7
      [0, 1] ⟨0, 0, 0⟩ =
      .ok [⟨0, List.replicate 12 0⟩, ⟨4, (List.replicate 12 0).set 2 255⟩] := by
    show (match processOneLayer false cgOneCE frameCE frameCE [false, true] chansW
        userW 7 0 ⟨0, 0, 0⟩ with
      | Except.error e => (Except.error e : Except String (List ReconGainElement))
      | Except.ok (elem, acc') =>
        match processLayers false cgOneCE frameCE frameCE [false, true] chansW userW 7
            [1] acc' with
        | Except.error e => Except.error e
        | Except.ok tail => Except.ok (elem :: tail)) =
      Except.ok [⟨0, List.replicate 12 0⟩, ⟨4, (List.replicate 12 0).set 2 255⟩]
    rw [show processOneLayer false cgOneCE frameCE frameCE [false, true] chansW
        userW 7 0 ⟨0, 0, 0⟩ = .ok (⟨0, List.replicate 12 0⟩, ⟨1, 0, 0⟩) from rfl]
    show (match processLayers false cgOneCE frameCE frameCE [false, true] chansW userW 7
        [1] ⟨1, 0, 0⟩ with
      | Except.error e => (Except.error e : Except String (List ReconGainElement))
      | Except.ok tail => Except.ok ((⟨0, List.replicate 12 0⟩ : ReconGainElement) :: tail)) =
      Except.ok [⟨0, List.replicate 12 0⟩, ⟨4, (List.replicate 12 0).set 2 255⟩]
    rw [hpl1]
  show (match processLayers false cgOneCE frameCE frameCE [false, true] chansW userW 7
      (List.range 2) ⟨0, 0, 0⟩ with
    | Except.error e => (Except.error e : Except String ReconGainInfoParameterData)
    | Except.ok elems => Except.ok ⟨elems⟩) = Except.ok outW
  rw [show List.range 2 = [0, 1] from rfl, hpl0]
  rfl

/-- Witness for the amended claim C7 at the mono-to-stereo run: layer 1
demixes only DemixedR2, the flag has exactly one set bit and every other
byte is zero. -/
theorem reconGainSubblock_flag_popcount_witness :
    popcount12 (outW.recon_gain_elements.getD 1 ⟨0, []⟩).recon_gain_flag =
      (([Label.kDemixedR2].map bitPosition).dedup).length ∧
    ∀ b, (outW.recon_gain_elements.getD 1 ⟨0, []⟩).recon_gain_flag.testBit b = false →
      (outW.recon_gain_elements.getD 1 ⟨0, []⟩).recon_gain.getD b 0 = 0 :=
  reconGainSubblock_flag_popcount cgOneCE frameCE frameCE 2 [false, true] chansW metaW 7
    outW 1 [.kDemixedR2] generateReconGainSubblock_r2_eval (by omega) rfl rfl

end Iamf
